import Mathlib

/-!
# Peony file-conflict dialog and desktop window

A shallow embedding of `libpeony-private/peony-file-conflict-dialog.c`; the
part of `src/peony-desktop-window.c` that guards the root-window filter has a
section of its own further down.

* A `PeonyFile *` is an address; the getters of `peony-file.h` (whose
  implementation is not part of the sources at hand) and
  `g_find_program_in_path` are fields of `Env`, taken as parameters.
* A widget is a record of the GTK properties the dialog reads or writes.
  `gtk_widget_show`, `gtk_widget_hide` and `gtk_widget_set_sensitive` set the
  widget's own `visible` / `sensitive` flag, as in GTK.
* A callback is a function from dialog state to dialog state.
* `_()` (gettext) is the identity: texts are the untranslated message ids.
  `g_strdup_printf` with one `%s` is written as string concatenation.
* A user action is an event: the widget changes and the connected callback
  runs (`user_edit`, `user_toggle`, `reset_button_clicked_cb`). `reachable` and
  `reachable_ungated` are the states the events lead to from
  `peony_file_conflict_dialog_init`.
* `do_finalize` returns the calls it makes on its collaborators, in order.
-/

namespace Peony

/-! ## Collaborators -/

/-- A `PeonyFile *`, identified by its address. `none` is `NULL`. -/
abbrev PeonyFile := Nat

/-- A `GdkPixbuf *`, identified by its address. -/
abbrev GdkPixbuf := Nat

/-- The functions of `peony-file.h` and of GLib that the dialog calls and whose
code is outside these sources. Each is a parameter of the model. The getters
that return a `char *` return a string, never `NULL`; `time_t` is an integer. -/
structure Env where
  peony_file_get_mtime : Option PeonyFile → Int
  peony_file_get_display_name : Option PeonyFile → String
  peony_file_get_edit_name : Option PeonyFile → String
  peony_file_is_directory : Option PeonyFile → Bool
  peony_file_get_mime_type : Option PeonyFile → String
  peony_file_is_mime_type : Option PeonyFile → String → Bool
  peony_file_is_binary : Option PeonyFile → Bool
  peony_file_get_icon_pixbuf : Option PeonyFile → GdkPixbuf
  peony_file_get_string_attribute : Option PeonyFile → String → String
  g_find_program_in_path : String → Option String
  eel_filename_get_rename_region : Option String → Int × Int

/-- The response ids of the dialog's buttons (`peony-file-conflict-dialog.h`
and `GTK_RESPONSE_CANCEL`); only their being distinct matters. -/
inductive ResponseId where
  | GTK_RESPONSE_CANCEL
  | CONFLICT_RESPONSE_SKIP
  | CONFLICT_RESPONSE_RENAME
  | CONFLICT_RESPONSE_REPLACE
  deriving DecidableEq, Repr

/-! ## Widgets -/

/-- The properties of a `GtkWidget` that the dialog touches. A fresh widget is
hidden and sensitive, as in GTK. `label` is a button's or label's text, `text`
an entry's content, `active` a toggle button's state, `pixbuf` an image's
picture, `expanded` an expander's state and `response_id` the response the
dialog emits when the widget, added with `gtk_dialog_add_button`, is clicked. -/
structure GtkWidget where
  visible : Bool := false
  sensitive : Bool := true
  label : String := ""
  text : String := ""
  active : Bool := false
  pixbuf : Option GdkPixbuf := none
  expanded : Bool := false
  response_id : Option ResponseId := none
  deriving DecidableEq, Repr

def gtk_widget_show (w : GtkWidget) : GtkWidget := { w with visible := true }

def gtk_widget_hide (w : GtkWidget) : GtkWidget := { w with visible := false }

def gtk_widget_set_sensitive (w : GtkWidget) (sensitive : Bool) : GtkWidget :=
  { w with sensitive := sensitive }

def gtk_label_new (str : String) : GtkWidget := { label := str }

def gtk_label_set_markup (w : GtkWidget) (str : String) : GtkWidget :=
  { w with label := str }

def gtk_button_set_label (w : GtkWidget) (label : String) : GtkWidget :=
  { w with label := label }

def gtk_image_new_from_pixbuf (pixbuf : GdkPixbuf) : GtkWidget :=
  { pixbuf := some pixbuf }

def gtk_image_set_from_pixbuf (w : GtkWidget) (pixbuf : GdkPixbuf) : GtkWidget :=
  { w with pixbuf := some pixbuf }

def gtk_entry_get_text (w : GtkWidget) : String := w.text

def gtk_toggle_button_get_active (w : GtkWidget) : Bool := w.active

def gtk_expander_get_expanded (w : GtkWidget) : Bool := w.expanded

def gtk_expander_new_with_mnemonic (label : String) : GtkWidget := { label := label }

def gtk_entry_new : GtkWidget := {}

def gtk_button_new_with_label (label : String) : GtkWidget := { label := label }

def gtk_check_button_new_with_mnemonic (label : String) : GtkWidget := { label := label }

/-- The call `gtk_dialog_add_button (dialog, button_text, response_id)`: GTK
creates the button, shows it and puts it into the dialog's action area. -/
def gtk_dialog_add_button (button_text : String) (response_id : ResponseId) : GtkWidget :=
  gtk_widget_show { label := button_text, response_id := some response_id }

/-- A child packed into one of the dialog's boxes. The two file images are
packed by reference: the widget itself is the one held in the details field of
the same name. This is exact for the one run of `file_list_ready_cb` that a
dialog sees (the request of `build_dialog_appearance` fires once): a second run
would leave the first run's image widgets in the boxes, which the details
fields no longer hold. -/
inductive BoxChild where
  | dest_image
  | src_image
  | widget (w : GtkWidget)
  deriving DecidableEq, Repr

/-- The handle of a pending `peony_file_list_call_when_ready` request. -/
structure PeonyFileListHandle where
  files : List PeonyFile
  deriving DecidableEq, Repr

/-- The widgets of the dialog that are given the keyboard focus. -/
inductive FocusWidget where
  | entry
  | replace_button
  deriving DecidableEq, Repr

/-! ## Dialog state -/

/-- The record `struct _PeonyFileConflictDialogDetails`. -/
structure PeonyFileConflictDialogDetails where
  source : Option PeonyFile := none
  destination : Option PeonyFile := none
  dest_dir : Option PeonyFile := none
  conflict_name : Option String := none
  handle : Option PeonyFileListHandle := none
  src_handler_id : Nat := 0
  dest_handler_id : Nat := 0
  titles_vbox : List BoxChild := []
  first_hbox : List BoxChild := []
  second_hbox : List BoxChild := []
  expander : GtkWidget := {}
  entry : GtkWidget := {}
  checkbox : GtkWidget := {}
  rename_button : GtkWidget := {}
  diff_button : GtkWidget := {}
  replace_button : GtkWidget := {}
  dest_image : Option GtkWidget := none
  src_image : Option GtkWidget := none

/-- A `PeonyFileConflictDialog`: its details, the part of the parent
`GtkDialog` the callbacks act on (default response, Cancel and Skip buttons),
and the registrations the dialog holds on `PeonyFile` objects (monitors with
the dialog as client, `"changed"` handlers as pairs of handler id and file).
`handler_seq` is the last signal-handler id handed out. `reset_button` is the
Reset button inside the expander, which the details do not keep; `focus` is the
widget last given the focus by `gtk_widget_grab_focus` and `selection` the
region of the entry last selected by `gtk_editable_select_region`. -/
structure PeonyFileConflictDialog where
  details : PeonyFileConflictDialogDetails := {}
  default_response : Option ResponseId := none
  cancel_button : GtkWidget := {}
  skip_button : GtkWidget := {}
  monitors : List PeonyFile := []
  changed_handlers : List (Nat × PeonyFile) := []
  handler_seq : Nat := 0
  reset_button : GtkWidget := {}
  focus : Option FocusWidget := none
  selection : Option (Int × Int) := none

/-! ## GLib helpers -/

/-- The function `strcmp` on the characters of two strings: `0` iff they are
equal, otherwise the sign of the first difference (code-point order, which is
the byte order of UTF-8). -/
def strcmp : List Char → List Char → Int
  | [], [] => 0
  | [], _ :: _ => -1
  | _ :: _, [] => 1
  | a :: s1, b :: s2 => if a = b then strcmp s1 s2 else if a.toNat < b.toNat then -1 else 1

/-- The function `g_strcmp0`: `NULL` sorts before every string, two strings are
compared by `strcmp`. -/
def g_strcmp0 (str1 str2 : Option String) : Int :=
  match str1, str2 with
  | none, none => 0
  | none, some _ => -1
  | some _, none => 1
  | some a, some b => strcmp a.data b.data

/-- The function `g_list_nth_data`: the element at position `n`, `NULL` off the
end of the list. -/
def g_list_nth_data (list : List PeonyFile) (n : Nat) : Option PeonyFile := list[n]?

def gtk_dialog_set_default_response (dialog : PeonyFileConflictDialog)
    (response_id : ResponseId) : PeonyFileConflictDialog :=
  { dialog with default_response := some response_id }

/-- The call `peony_file_monitor_add (file, fcd, attributes)`; nothing is
registered on `NULL`. -/
def peony_file_monitor_add (file : Option PeonyFile) (fcd : PeonyFileConflictDialog) :
    PeonyFileConflictDialog :=
  match file with
  | none => fcd
  | some f => { fcd with monitors := f :: fcd.monitors }

/-- The call `g_signal_connect (file, "changed", file_icons_changed, fcd)`: a
fresh, positive handler id; `0` and no connection on `NULL`. -/
def g_signal_connect (file : Option PeonyFile) (fcd : PeonyFileConflictDialog) :
    PeonyFileConflictDialog × Nat :=
  match file with
  | none => (fcd, 0)
  | some f =>
    let id := fcd.handler_seq + 1
    ({ fcd with handler_seq := id, changed_handlers := (id, f) :: fcd.changed_handlers }, id)

/-! ## Callbacks -/

/-- The callback `entry_text_changed_cb` (lines 440-472); `entry` is
`details->entry`, the only widget the handler is connected to. -/
def entry_text_changed_cb (dialog : PeonyFileConflictDialog) : PeonyFileConflictDialog :=
  let details := dialog.details
  if g_strcmp0 (some (gtk_entry_get_text details.entry)) (some "") ≠ 0 ∧
      g_strcmp0 (some (gtk_entry_get_text details.entry)) details.conflict_name ≠ 0 then
    let details := { details with replace_button := gtk_widget_hide details.replace_button }
    let details := { details with rename_button := gtk_widget_show details.rename_button }
    let details := { details with checkbox := gtk_widget_set_sensitive details.checkbox false }
    gtk_dialog_set_default_response { dialog with details := details }
      ResponseId.CONFLICT_RESPONSE_RENAME
  else
    let details := { details with rename_button := gtk_widget_hide details.rename_button }
    let details := { details with replace_button := gtk_widget_show details.replace_button }
    let details := { details with checkbox := gtk_widget_set_sensitive details.checkbox true }
    gtk_dialog_set_default_response { dialog with details := details }
      ResponseId.CONFLICT_RESPONSE_REPLACE

/-- The call `gtk_entry_set_text (details->entry, text)`. GTK returns at once on
a `NULL` text and when the text is the one the entry already holds; otherwise
it stores the text and emits `"changed"`, which runs `entry_text_changed_cb`
before the call returns. -/
def gtk_entry_set_text (dialog : PeonyFileConflictDialog) (text : Option String) :
    PeonyFileConflictDialog :=
  match text with
  | none => dialog
  | some t =>
    if dialog.details.entry.text = t then dialog
    else
      entry_text_changed_cb
        { dialog with details := { dialog.details with
            entry := { dialog.details.entry with text := t } } }

/-- The callback `checkbox_toggled_cb` (lines 498-525); `t` is
`details->checkbox`. -/
def checkbox_toggled_cb (dialog : PeonyFileConflictDialog) : PeonyFileConflictDialog :=
  let details := dialog.details
  let t := details.checkbox
  let details := { details with
    expander := gtk_widget_set_sensitive details.expander (!gtk_toggle_button_get_active t) }
  let details := { details with
    rename_button :=
      gtk_widget_set_sensitive details.rename_button (!gtk_toggle_button_get_active t) }
  if !gtk_toggle_button_get_active t ∧
      g_strcmp0 (some (gtk_entry_get_text details.entry)) (some "") ≠ 0 ∧
      g_strcmp0 (some (gtk_entry_get_text details.entry)) details.conflict_name ≠ 0 then
    let details := { details with replace_button := gtk_widget_hide details.replace_button }
    let details := { details with rename_button := gtk_widget_show details.rename_button }
    { dialog with details := details }
  else
    let details := { details with rename_button := gtk_widget_hide details.rename_button }
    let details := { details with replace_button := gtk_widget_show details.replace_button }
    { dialog with details := details }

/-- The callback `file_icons_changed` (lines 78-99). -/
def file_icons_changed (env : Env) (fcd : PeonyFileConflictDialog) : PeonyFileConflictDialog :=
  let details := fcd.details
  let pixbuf := env.peony_file_get_icon_pixbuf details.destination
  let details := { details with
    dest_image := details.dest_image.map (fun w => gtk_image_set_from_pixbuf w pixbuf) }
  let pixbuf := env.peony_file_get_icon_pixbuf details.source
  let details := { details with
    src_image := details.src_image.map (fun w => gtk_image_set_from_pixbuf w pixbuf) }
  { fcd with details := details }

/-- The three texts chosen by the block "Set up the right labels" of
`file_list_ready_cb` (lines 147-215): `primary_text`, `message` and
`message_extra`. -/
def file_list_ready_cb_labels (dest_is_dir source_is_dir : Bool) (src_mtime dest_mtime : Int)
    (dest_name dest_dir_name : String) : String × String × String :=
  if dest_is_dir then
    if source_is_dir then
      let primary_text := "Merge folder \"" ++ dest_name ++ "\"?"
      let message_extra :=
        "Merging will ask for confirmation before replacing any files in " ++
        "the folder that conflict with the files being copied."
      if src_mtime > dest_mtime then
        (primary_text,
          "An older folder with the same name already exists in \"" ++ dest_dir_name ++ "\".",
          message_extra)
      else if src_mtime < dest_mtime then
        (primary_text,
          "A newer folder with the same name already exists in \"" ++ dest_dir_name ++ "\".",
          message_extra)
      else
        (primary_text,
          "Another folder with the same name already exists in \"" ++ dest_dir_name ++ "\".",
          message_extra)
    else
      let message_extra := "Replacing it will remove all files in the folder."
      let primary_text := "Replace folder \"" ++ dest_name ++ "\"?"
      (primary_text,
        "A folder with the same name already exists in \"" ++ dest_dir_name ++ "\".",
        message_extra)
  else
    let primary_text := "Replace file \"" ++ dest_name ++ "\"?"
    let message_extra := "Replacing it will overwrite its content."
    if src_mtime > dest_mtime then
      (primary_text,
        "An older file with the same name already exists in \"" ++ dest_dir_name ++ "\".",
        message_extra)
    else if src_mtime < dest_mtime then
      (primary_text,
        "A newer file with the same name already exists in \"" ++ dest_dir_name ++ "\".",
        message_extra)
    else
      (primary_text,
        "Another file with the same name already exists in \"" ++ dest_dir_name ++ "\".",
        message_extra)

/-- The markup of one file-information label of `file_list_ready_cb`
(lines 308-317 and 342-350), headed by `title`. -/
def file_list_ready_cb_info (title size type date : String) (should_show_type : Bool) : String :=
  let str := "<b>" ++ title ++ "</b>\n"
  let str := str ++ ("Size:" ++ " " ++ size ++ "\n")
  let str := if should_show_type then str ++ ("Type:" ++ " " ++ type ++ "\n") else str
  str ++ ("Last modified:" ++ " " ++ date)

/-- The callback `file_list_ready_cb` (lines 101-403). A label is shown right
after it is packed; here it is shown, then packed. -/
def file_list_ready_cb (env : Env) (files : List PeonyFile) (fcd : PeonyFileConflictDialog) :
    PeonyFileConflictDialog :=
  let details := fcd.details
  let details := { details with handle := none }
  let dest_dir := g_list_nth_data files 0
  let dest := g_list_nth_data files 1
  let src := g_list_nth_data files 2
  let src_mtime := env.peony_file_get_mtime src
  let dest_mtime := env.peony_file_get_mtime dest
  let dest_name := env.peony_file_get_display_name dest
  let dest_dir_name := env.peony_file_get_display_name dest_dir
  let source_is_dir := env.peony_file_is_directory src
  let dest_is_dir := env.peony_file_is_directory dest
  let type := env.peony_file_get_mime_type dest
  let should_show_type := !env.peony_file_is_mime_type src type
  -- Set up the right labels
  let texts :=
    file_list_ready_cb_labels dest_is_dir source_is_dir src_mtime dest_mtime dest_name
      dest_dir_name
  let primary_text := texts.1
  let message := texts.2.1
  let message_extra := texts.2.2
  let secondary_text := message ++ "\n" ++ message_extra
  let label := gtk_widget_show (gtk_label_new primary_text)
  let details := { details with titles_vbox := details.titles_vbox ++ [BoxChild.widget label] }
  let label := gtk_widget_show (gtk_label_new secondary_text)
  let details := { details with titles_vbox := details.titles_vbox ++ [BoxChild.widget label] }
  -- Set up file icons
  let pixbuf := env.peony_file_get_icon_pixbuf dest
  let details := { details with
    dest_image := some (gtk_widget_show (gtk_image_new_from_pixbuf pixbuf))
    first_hbox := details.first_hbox ++ [BoxChild.dest_image] }
  let pixbuf := env.peony_file_get_icon_pixbuf src
  let details := { details with
    src_image := some (gtk_widget_show (gtk_image_new_from_pixbuf pixbuf))
    second_hbox := details.second_hbox ++ [BoxChild.src_image] }
  -- Set up labels
  let date := env.peony_file_get_string_attribute dest "date_modified"
  let size := env.peony_file_get_string_attribute dest "size"
  let type := env.peony_file_get_string_attribute dest "type"
  let label_text := file_list_ready_cb_info "Original file" size type date should_show_type
  let label := gtk_widget_show (gtk_label_set_markup (gtk_label_new "") label_text)
  let details := { details with first_hbox := details.first_hbox ++ [BoxChild.widget label] }
  -- Second label
  let date := env.peony_file_get_string_attribute src "date_modified"
  let size := env.peony_file_get_string_attribute src "size"
  let type := env.peony_file_get_string_attribute src "type"
  let label_text := file_list_ready_cb_info "Replace with" size type date should_show_type
  let label := gtk_widget_show (gtk_label_set_markup (gtk_label_new "") label_text)
  let details := { details with second_hbox := details.second_hbox ++ [BoxChild.widget label] }
  -- Populate the entry
  let edit_name := env.peony_file_get_edit_name dest
  let details := { details with conflict_name := some edit_name }
  let fcd := gtk_entry_set_text { fcd with details := details } (some edit_name)
  let details := fcd.details
  let details := { details with
    replace_button :=
      if source_is_dir ∧ dest_is_dir then gtk_button_set_label details.replace_button "Merge"
      else details.replace_button }
  -- If meld is installed, and source and destination arent binary files,
  -- show the diff button
  let details := { details with diff_button := gtk_widget_hide details.diff_button }
  let details := { details with
    diff_button :=
      if !source_is_dir ∧ !dest_is_dir then
        match env.g_find_program_in_path "meld" with
        | some _ =>
          let src_is_binary := env.peony_file_is_binary details.source
          let dest_is_binary := env.peony_file_is_binary details.destination
          if !src_is_binary ∧ !dest_is_binary then gtk_widget_show details.diff_button
          else details.diff_button
        | none => details.diff_button
      else details.diff_button }
  let fcd := { fcd with details := details }
  let fcd := peony_file_monitor_add src fcd
  let fcd := peony_file_monitor_add dest fcd
  let connected := g_signal_connect src fcd
  let fcd := { connected.1 with
    details := { connected.1.details with src_handler_id := connected.2 } }
  let connected := g_signal_connect dest fcd
  { connected.1 with details := { connected.1.details with dest_handler_id := connected.2 } }

/-- The accessor `peony_file_conflict_dialog_get_new_name` (lines 762-767). -/
def peony_file_conflict_dialog_get_new_name (dialog : PeonyFileConflictDialog) : String :=
  gtk_entry_get_text dialog.details.entry

/-- The accessor `peony_file_conflict_dialog_get_apply_to_all` (lines 769-774). -/
def peony_file_conflict_dialog_get_apply_to_all (dialog : PeonyFileConflictDialog) : Bool :=
  gtk_toggle_button_get_active dialog.details.checkbox

/-! ## Observations and concrete inputs -/

/-- The texts of the labels and buttons packed into a box, in packing order. -/
def box_label_texts : List BoxChild → List String
  | [] => []
  | BoxChild.widget w :: rest => w.label :: box_label_texts rest
  | _ :: rest => box_label_texts rest

/-- The word collected so far (its characters in reverse), as a list of at most
one word. -/
def flush_word (cur : List Char) : List (List Char) :=
  if cur = [] then [] else [cur.reverse]

/-- The words of a text after the partial word `cur`: a word is a maximal run
of letters and digits. -/
def words_from (cur : List Char) : List Char → List (List Char)
  | [] => flush_word cur
  | c :: cs =>
    if c.isAlphanum then words_from (c :: cur) cs
    else flush_word cur ++ words_from [] cs

/-- The words of a text. -/
def text_words (l : List Char) : List (List Char) := words_from [] l

/-- Whether the text `s` contains the word `w` (as a whole word: "folder" does
not contain the word "older"). -/
def contains_word (s w : String) : Bool := decide (w.data ∈ text_words s.data)

/-- The dialog state with the entry holding `text` (no signal is emitted). -/
def with_entry_text (dialog : PeonyFileConflictDialog) (text : String) :
    PeonyFileConflictDialog :=
  { dialog with details := { dialog.details with
      entry := { dialog.details.entry with text := text } } }

/-- A concrete host for evaluation: the destination directory is file `0`, the
destination file `1` and the source file `2`; `meld` is installed and no file
is binary. -/
def conflict_env (dest_dir_name dest_display_name dest_edit_name : String)
    (dest_is_dir source_is_dir : Bool) (dest_mtime src_mtime : Int) : Env where
  peony_file_get_mtime := fun f => if f = some 2 then src_mtime else dest_mtime
  peony_file_get_display_name := fun f =>
    if f = some 0 then dest_dir_name else if f = some 1 then dest_display_name else "incoming"
  peony_file_get_edit_name := fun f => if f = some 1 then dest_edit_name else "incoming"
  peony_file_is_directory := fun f =>
    if f = some 0 then true else if f = some 1 then dest_is_dir else source_is_dir
  peony_file_get_mime_type := fun _ => "text/plain"
  peony_file_is_mime_type := fun _ _ => true
  peony_file_is_binary := fun _ => false
  peony_file_get_icon_pixbuf := fun f => f.getD 0
  peony_file_get_string_attribute := fun _ attribute_name => attribute_name
  g_find_program_in_path := fun program => some ("/usr/bin/" ++ program)
  eel_filename_get_rename_region := fun name => (0, ((name.getD "").length : Int))

/-- A concrete dialog state for evaluation: the three files are set, the request
for them is pending, the Replace button is shown, the Rename and Differences
buttons are hidden, nothing is typed and the checkbox is `apply_to_all`. -/
def sample_dialog (apply_to_all : Bool) : PeonyFileConflictDialog :=
  { details :=
      { source := some 2
        destination := some 1
        dest_dir := some 0
        handle := some { files := [0, 1, 2] }
        expander := { visible := true, label := "Select a new name for the _destination" }
        entry := { visible := true }
        checkbox :=
          { visible := true, label := "Apply this action to all files", active := apply_to_all }
        rename_button := { label := "Re_name" }
        diff_button := { label := "Differences..." }
        replace_button := { visible := true, label := "Replace" } }
    cancel_button := { visible := true, label := "gtk-cancel" }
    skip_button := { visible := true, label := "_Skip" } }

/-- The concrete dialog after `file_list_ready_cb` for a file "notes.txt"
(mtime 100) in "Documents" met by a source of mtime 200: the entry and
`conflict_name` hold "notes.txt". -/
def ready_dialog (apply_to_all : Bool) : PeonyFileConflictDialog :=
  file_list_ready_cb (conflict_env "Documents" "notes.txt" "notes.txt" false false 100 200)
    [0, 1, 2] (sample_dialog apply_to_all)

/-- The host `env` with other modification times, and other string
attributes (among them the `date_modified` text shown for each file). -/
def with_mtimes (env : Env) (mtime : Option PeonyFile → Int)
    (string_attribute : Option PeonyFile → String → String) : Env :=
  { env with
    peony_file_get_mtime := mtime
    peony_file_get_string_attribute := string_attribute }

/-- The callback `expander_activated_cb` (lines 474-496); `w` is
`details->expander`. -/
def expander_activated_cb (env : Env) (dialog : PeonyFileConflictDialog) :
    PeonyFileConflictDialog :=
  let details := dialog.details
  if !gtk_expander_get_expanded details.expander then
    if g_strcmp0 (some (gtk_entry_get_text details.entry)) details.conflict_name = 0 then
      let dialog := { dialog with focus := some FocusWidget.entry }
      let region := env.eel_filename_get_rename_region details.conflict_name
      { dialog with selection := some region }
    else dialog
  else dialog

/-- The callback `reset_button_clicked_cb` (lines 527-544). -/
def reset_button_clicked_cb (env : Env) (dialog : PeonyFileConflictDialog) :
    PeonyFileConflictDialog :=
  let details := dialog.details
  let dialog := gtk_entry_set_text dialog details.conflict_name
  let dialog := { dialog with focus := some FocusWidget.entry }
  let region := env.eel_filename_get_rename_region details.conflict_name
  { dialog with selection := some region }

/-- The function `peony_file_conflict_dialog_init` (lines 584-720), on the
instance `fcd` as allocated. Boxes and margins that only lay widgets out are
left out. `gtk_widget_show_all` shows a container and, recursively, every
widget below it. `vbox2` holds the two file boxes and the expander with the
entry and the Reset button. `dialog_area` is the dialog's content area, the
box GTK calls `vbox`; it holds everything this function packs and also the
dialog's action area with the buttons added by `gtk_dialog_add_button(s)`
(GtkDialog reference, "GtkDialog as GtkBuildable": `action_area` is a child of
`vbox`), so the last call shows the four buttons as well. -/
def peony_file_conflict_dialog_init (fcd : PeonyFileConflictDialog) :
    PeonyFileConflictDialog :=
  let details := fcd.details
  -- Setup the vbox for the dialog labels
  let details := { details with titles_vbox := [] }
  -- Setup the hboxes to pack file infos into
  let details := { details with first_hbox := [] }
  let details := { details with second_hbox := [] }
  -- Setup the expander for the rename action
  let details := { details with
    expander := gtk_expander_new_with_mnemonic "Select a new name for the _destination" }
  let details := { details with entry := gtk_entry_new }
  let reset_button := gtk_button_new_with_label "Reset"
  -- gtk_widget_show_all (vbox2)
  let details := { details with
    expander := gtk_widget_show details.expander
    entry := gtk_widget_show details.entry }
  let reset_button := gtk_widget_show reset_button
  -- Setup the diff button for text files
  let details := { details with diff_button := gtk_button_new_with_label "Differences..." }
  let details := { details with diff_button := gtk_widget_hide details.diff_button }
  -- Setup the checkbox to apply the action to all files
  let details := { details with
    checkbox := gtk_check_button_new_with_mnemonic "Apply this action to all files" }
  -- Add buttons
  let cancel_button := gtk_dialog_add_button "gtk-cancel" ResponseId.GTK_RESPONSE_CANCEL
  let skip_button := gtk_dialog_add_button "_Skip" ResponseId.CONFLICT_RESPONSE_SKIP
  let details := { details with
    rename_button := gtk_dialog_add_button "Re_name" ResponseId.CONFLICT_RESPONSE_RENAME }
  let details := { details with rename_button := gtk_widget_hide details.rename_button }
  let details := { details with
    replace_button := gtk_dialog_add_button "Replace" ResponseId.CONFLICT_RESPONSE_REPLACE }
  let focus := some FocusWidget.replace_button
  -- gtk_widget_show_all (dialog_area)
  let details := { details with
    expander := gtk_widget_show details.expander
    entry := gtk_widget_show details.entry
    diff_button := gtk_widget_show details.diff_button
    checkbox := gtk_widget_show details.checkbox
    rename_button := gtk_widget_show details.rename_button
    replace_button := gtk_widget_show details.replace_button }
  { fcd with
    details := details
    cancel_button := gtk_widget_show cancel_button
    skip_button := gtk_widget_show skip_button
    reset_button := gtk_widget_show reset_button
    focus := focus }

/-- The calls `do_finalize` makes on its collaborators, in order, and
`gtk_dialog_response`, the call by which a decision leaves a dialog. -/
inductive ExternalCall where
  | g_free (str : Option String)
  | peony_file_list_cancel_call_when_ready (handle : PeonyFileListHandle)
  | g_signal_handler_disconnect (file : Option PeonyFile) (handler_id : Nat)
  | peony_file_monitor_remove (file : Option PeonyFile)
  | peony_file_unref (file : Option PeonyFile)
  | parent_finalize
  | gtk_dialog_response (response_id : ResponseId)
  deriving DecidableEq, Repr

/-- The call `g_signal_handler_disconnect (file, handler_id)`: the handler with
that id on that file is gone. -/
def g_signal_handler_disconnect (file : Option PeonyFile) (handler_id : Nat)
    (fcd : PeonyFileConflictDialog) : PeonyFileConflictDialog :=
  { fcd with
    changed_handlers :=
      fcd.changed_handlers.filter (fun h => !decide (h.1 = handler_id ∧ some h.2 = file)) }

/-- The call `peony_file_monitor_remove (file, self)`: the dialog no longer
monitors the file. -/
def peony_file_monitor_remove (file : Option PeonyFile) (fcd : PeonyFileConflictDialog) :
    PeonyFileConflictDialog :=
  { fcd with monitors := fcd.monitors.filter (fun f => !decide (some f = file)) }

/-- The function `do_finalize` (lines 722-752): the dialog's registrations
afterwards and the calls made. -/
def do_finalize (self : PeonyFileConflictDialog) :
    PeonyFileConflictDialog × List ExternalCall :=
  let details := self.details
  let calls := [ExternalCall.g_free details.conflict_name]
  let calls :=
    match details.handle with
    | some handle => calls ++ [ExternalCall.peony_file_list_cancel_call_when_ready handle]
    | none => calls
  let state :=
    if details.src_handler_id ≠ 0 then
      (peony_file_monitor_remove details.source
          (g_signal_handler_disconnect details.source details.src_handler_id self),
        calls ++ [ExternalCall.g_signal_handler_disconnect details.source details.src_handler_id,
          ExternalCall.peony_file_monitor_remove details.source])
    else (self, calls)
  let state :=
    if details.dest_handler_id ≠ 0 then
      (peony_file_monitor_remove details.destination
          (g_signal_handler_disconnect details.destination details.dest_handler_id state.1),
        state.2 ++
          [ExternalCall.g_signal_handler_disconnect details.destination details.dest_handler_id,
            ExternalCall.peony_file_monitor_remove details.destination])
    else state
  (state.1,
    state.2 ++ [ExternalCall.peony_file_unref details.source,
      ExternalCall.peony_file_unref details.destination,
      ExternalCall.peony_file_unref details.dest_dir,
      ExternalCall.parent_finalize])

/-! ## Events -/

/-- A user edit of the entry: the entry holds `text`, and the `"changed"`
signal runs `entry_text_changed_cb`. -/
def user_edit (dialog : PeonyFileConflictDialog) (text : String) : PeonyFileConflictDialog :=
  entry_text_changed_cb (with_entry_text dialog text)

/-- The dialog state with the checkbox in state `active` (no signal is
emitted). -/
def with_checkbox_active (dialog : PeonyFileConflictDialog) (active : Bool) :
    PeonyFileConflictDialog :=
  { dialog with details := { dialog.details with
      checkbox := { dialog.details.checkbox with active := active } } }

/-- A user click on the checkbox: its state flips, and the `"toggled"` signal
runs `checkbox_toggled_cb`. -/
def user_toggle (dialog : PeonyFileConflictDialog) : PeonyFileConflictDialog :=
  checkbox_toggled_cb (with_checkbox_active dialog (!dialog.details.checkbox.active))

/-- The states the dialog reaches from `peony_file_conflict_dialog_init` when
the user can act only on sensitive widgets: the entry and the Reset button sit
inside the expander and follow its sensitivity; the checkbox follows its own.
`file_list_ready_cb` may run at any time, for any files. The instance handed
to `peony_file_conflict_dialog_init` is a new `GtkDialog`, on which
`gtk_dialog_set_default_response` has not been called yet. -/
inductive reachable : PeonyFileConflictDialog → Prop where
  | init (fcd : PeonyFileConflictDialog) :
      fcd.default_response = none → reachable (peony_file_conflict_dialog_init fcd)
  | file_list_ready (env : Env) (files : List PeonyFile) (d : PeonyFileConflictDialog) :
      reachable d → reachable (file_list_ready_cb env files d)
  | edit (text : String) (d : PeonyFileConflictDialog) :
      reachable d → d.details.expander.sensitive = true → reachable (user_edit d text)
  | reset (env : Env) (d : PeonyFileConflictDialog) :
      reachable d → d.details.expander.sensitive = true →
      reachable (reset_button_clicked_cb env d)
  | toggle (d : PeonyFileConflictDialog) :
      reachable d → d.details.checkbox.sensitive = true → reachable (user_toggle d)

/-- The states the dialog reaches from `peony_file_conflict_dialog_init` by
checkbox toggles, entry edits, Reset clicks and `file_list_ready_cb`, whether
or not the widgets are sensitive. -/
inductive reachable_ungated : PeonyFileConflictDialog → Prop where
  | init (fcd : PeonyFileConflictDialog) :
      reachable_ungated (peony_file_conflict_dialog_init fcd)
  | file_list_ready (env : Env) (files : List PeonyFile) (d : PeonyFileConflictDialog) :
      reachable_ungated d → reachable_ungated (file_list_ready_cb env files d)
  | edit (text : String) (d : PeonyFileConflictDialog) :
      reachable_ungated d → reachable_ungated (user_edit d text)
  | reset (env : Env) (d : PeonyFileConflictDialog) :
      reachable_ungated d → reachable_ungated (reset_button_clicked_cb env d)
  | toggle (d : PeonyFileConflictDialog) :
      reachable_ungated d → reachable_ungated (user_toggle d)

/-- The concrete dialog as the user first sees it:
`peony_file_conflict_dialog_init` on a new instance, then `file_list_ready_cb`
for a file "notes.txt" (mtime 100) in "Documents" met by a source of mtime
200. -/
def opened_dialog : PeonyFileConflictDialog :=
  file_list_ready_cb (conflict_env "Documents" "notes.txt" "notes.txt" false false 100 200)
    [0, 1, 2] (peony_file_conflict_dialog_init {})

/-! ## Building the file list -/

/-- The function `g_list_prepend` on a list of `PeonyFile *`. -/
def g_list_prepend (list : List (Option PeonyFile)) (data : Option PeonyFile) :
    List (Option PeonyFile) :=
  data :: list

/-- The call `peony_file_list_call_when_ready (files, attributes,
&details->handle, file_list_ready_cb, fcd)`: the request is registered and
`details->handle` points to it. The request keeps the files of the list, in
the order of the list, and hands them to the callback once they are ready. -/
def peony_file_list_call_when_ready (file_list : List (Option PeonyFile))
    (fcd : PeonyFileConflictDialog) : PeonyFileConflictDialog :=
  { fcd with details := { fcd.details with
      handle := some { files := file_list.reduceOption } } }

/-- The function `build_dialog_appearance` (lines 405-419): the dialog with the
request registered, and the list handed to `peony_file_list_call_when_ready`. -/
def build_dialog_appearance (fcd : PeonyFileConflictDialog) :
    PeonyFileConflictDialog × List (Option PeonyFile) :=
  let files : List (Option PeonyFile) := []
  let details := fcd.details
  let files := g_list_prepend files details.source
  let files := g_list_prepend files details.destination
  let files := g_list_prepend files details.dest_dir
  (peony_file_list_call_when_ready files fcd, files)

/-! ## Desktop window

A shallow embedding of the part of `src/peony-desktop-window.c` that is built
for GTK 3.21 and later: the window keeps a copy of the root window's
background while the screen is not composited, and listens to the root window
for changes of it. -/

/-- A `cairo_surface_t *`, identified by its address. -/
abbrev CairoSurface := Nat

/-- What the default screen answers at the time of a call:
`gdk_screen_is_composited`, the surface `ukui_bg_get_surface_from_root`
returns, and the X atom of `_XROOTPMAP_ID`. -/
structure GdkScreen where
  is_composited : Bool
  surface_from_root : Option CairoSurface
  xrootpmap_id : Nat

/-- The fields of an `XEvent` that `filter_func` reads: `type` and
`xproperty.atom`. -/
structure XEvent where
  type : Nat
  atom : Nat

/-- The X11 event type `PropertyNotify`. -/
def PropertyNotify : Nat := 28

inductive GdkFilterReturn where
  | GDK_FILTER_CONTINUE
  | GDK_FILTER_TRANSLATE
  | GDK_FILTER_REMOVE
  deriving DecidableEq, Repr

/-- The record `struct PeonyDesktopWindowDetails`. -/
structure PeonyDesktopWindowDetails where
  size_changed_id : Nat := 0
  loaded : Bool := false
  composited : Bool := false
  surface : Option CairoSurface := none
  deriving DecidableEq, Repr

/-- A `PeonyDesktopWindow`: its details and what it has done to its
surroundings. `root_filter` tells whether `filter_func`, with this window as
data, is on the root window's list of event filters; `root_property_change`
whether the window has added `GDK_PROPERTY_CHANGE_MASK` to the root window's
events; `destroyed` lists the surfaces given to `cairo_surface_destroy` and
`queued_draws` counts the calls of `gtk_widget_queue_draw`. -/
structure PeonyDesktopWindow where
  details : PeonyDesktopWindowDetails := {}
  root_filter : Bool := false
  root_property_change : Bool := false
  destroyed : List CairoSurface := []
  queued_draws : Nat := 0
  deriving DecidableEq, Repr

def gdk_window_add_filter (window : PeonyDesktopWindow) : PeonyDesktopWindow :=
  { window with root_filter := true }

def gdk_window_remove_filter (window : PeonyDesktopWindow) : PeonyDesktopWindow :=
  { window with root_filter := false }

def cairo_surface_destroy (window : PeonyDesktopWindow) (surface : CairoSurface) :
    PeonyDesktopWindow :=
  { window with destroyed := window.destroyed ++ [surface] }

/-- The function `background_changed` (lines 59-70). -/
def background_changed (screen : GdkScreen) (window : PeonyDesktopWindow) :
    PeonyDesktopWindow :=
  let window :=
    match window.details.surface with
    | some surface => cairo_surface_destroy window surface
    | none => window
  let window := { window with
    details := { window.details with surface := screen.surface_from_root } }
  { window with queued_draws := window.queued_draws + 1 }

/-- The function `filter_func` (lines 72-92). -/
def filter_func (screen : GdkScreen) (xev : XEvent) (window : PeonyDesktopWindow) :
    PeonyDesktopWindow × GdkFilterReturn :=
  if xev.type ≠ PropertyNotify then
    (window, GdkFilterReturn.GDK_FILTER_CONTINUE)
  else if xev.atom ≠ screen.xrootpmap_id then
    (window, GdkFilterReturn.GDK_FILTER_CONTINUE)
  else
    (background_changed screen window, GdkFilterReturn.GDK_FILTER_CONTINUE)

/-- The function `peony_desktop_window_composited_changed` (lines 94-123). -/
def peony_desktop_window_composited_changed (screen : GdkScreen)
    (window : PeonyDesktopWindow) : PeonyDesktopWindow :=
  let composited := screen.is_composited
  if window.details.composited = composited then
    window
  else
    let window := { window with details := { window.details with composited := composited } }
    if composited then
      let window := gdk_window_remove_filter window
      match window.details.surface with
      | some surface =>
        let window := cairo_surface_destroy window surface
        { window with details := { window.details with surface := none } }
      | none => window
    else
      let window := { window with root_property_change := true }
      let window := gdk_window_add_filter window
      background_changed screen window

/-- The function `peony_desktop_window_finalize` (lines 139-157); the parent's
`finalize` is left out. -/
def peony_desktop_window_finalize (window : PeonyDesktopWindow) : PeonyDesktopWindow :=
  let window :=
    if window.details.composited = false then gdk_window_remove_filter window
    else window
  match window.details.surface with
  | some surface =>
    let window := cairo_surface_destroy window surface
    { window with details := { window.details with surface := none } }
  | none => window

/-- The function `peony_desktop_window_init` (lines 160-206), on the instance
as allocated. The calls that follow `peony_desktop_window_composited_changed`
act on the parent `PeonyWindow` and on the accessible object, not on the
details, the root window or the surface, and are left out. -/
def peony_desktop_window_init (screen : GdkScreen) (window : PeonyDesktopWindow) :
    PeonyDesktopWindow :=
  let window := { window with details := { window.details with composited := true } }
  peony_desktop_window_composited_changed screen window

/-- The states a desktop window reaches. The instance handed to
`peony_desktop_window_init` is new: its details are zero-filled and nothing is
installed on the root window for it. Afterwards GTK calls
`peony_desktop_window_composited_changed` whenever it sees fit, and GDK calls
`filter_func` for an event of the root window while the filter is on the root
window's list. -/
inductive desktop_reachable : PeonyDesktopWindow → Prop where
  | init (screen : GdkScreen) (window : PeonyDesktopWindow) :
      window.details.surface = none → window.root_filter = false →
      desktop_reachable (peony_desktop_window_init screen window)
  | composited_changed (screen : GdkScreen) (window : PeonyDesktopWindow) :
      desktop_reachable window →
      desktop_reachable (peony_desktop_window_composited_changed screen window)
  | filter (screen : GdkScreen) (xev : XEvent) (window : PeonyDesktopWindow) :
      desktop_reachable window → window.root_filter = true →
      desktop_reachable (filter_func screen xev window).1

/-! ## Frame lemmas -/

theorem strcmp_eq_zero (a b : List Char) : strcmp a b = 0 ↔ a = b := by
  induction a generalizing b with
  | nil => cases b <;> simp [strcmp]
  | cons x a ih =>
    cases b with
    | nil => simp [strcmp]
    | cons y b =>
      simp only [strcmp, List.cons.injEq]
      split_ifs with hxy hlt
      · simp [hxy, ih]
      · simp [hxy]
      · simp [hxy]

theorem g_strcmp0_eq_zero (a b : String) : g_strcmp0 (some a) (some b) = 0 ↔ a = b := by
  simp only [g_strcmp0, strcmp_eq_zero, String.ext_iff]

theorem g_strcmp0_null_ne_zero (a : String) : g_strcmp0 (some a) none ≠ 0 := by
  simp [g_strcmp0]

theorem peony_file_monitor_add_details (file : Option PeonyFile)
    (fcd : PeonyFileConflictDialog) :
    (peony_file_monitor_add file fcd).details = fcd.details := by
  cases file <;> rfl

theorem g_signal_connect_details (file : Option PeonyFile) (fcd : PeonyFileConflictDialog) :
    (g_signal_connect file fcd).1.details = fcd.details := by
  cases file <;> rfl

theorem peony_file_monitor_add_default_response (file : Option PeonyFile)
    (fcd : PeonyFileConflictDialog) :
    (peony_file_monitor_add file fcd).default_response = fcd.default_response := by
  cases file <;> rfl

theorem g_signal_connect_default_response (file : Option PeonyFile)
    (fcd : PeonyFileConflictDialog) :
    (g_signal_connect file fcd).1.default_response = fcd.default_response := by
  cases file <;> rfl

/-! ### What `gtk_entry_set_text` does -/

/-- The call `gtk_entry_set_text` with a text, widget by widget. -/
theorem gtk_entry_set_text_some (d : PeonyFileConflictDialog) (t : String) :
    gtk_entry_set_text d (some t) =
      { d with
        details := { d.details with
          entry := { d.details.entry with text := t }
          replace_button :=
            if d.details.entry.text = t then d.details.replace_button
            else if g_strcmp0 (some t) (some "") ≠ 0 ∧
                g_strcmp0 (some t) d.details.conflict_name ≠ 0
              then gtk_widget_hide d.details.replace_button
              else gtk_widget_show d.details.replace_button
          rename_button :=
            if d.details.entry.text = t then d.details.rename_button
            else if g_strcmp0 (some t) (some "") ≠ 0 ∧
                g_strcmp0 (some t) d.details.conflict_name ≠ 0
              then gtk_widget_show d.details.rename_button
              else gtk_widget_hide d.details.rename_button
          checkbox :=
            if d.details.entry.text = t then d.details.checkbox
            else if g_strcmp0 (some t) (some "") ≠ 0 ∧
                g_strcmp0 (some t) d.details.conflict_name ≠ 0
              then gtk_widget_set_sensitive d.details.checkbox false
              else gtk_widget_set_sensitive d.details.checkbox true }
        default_response :=
          if d.details.entry.text = t then d.default_response
          else if g_strcmp0 (some t) (some "") ≠ 0 ∧
              g_strcmp0 (some t) d.details.conflict_name ≠ 0
            then some ResponseId.CONFLICT_RESPONSE_RENAME
            else some ResponseId.CONFLICT_RESPONSE_REPLACE } := by
  unfold gtk_entry_set_text entry_text_changed_cb
  simp only [gtk_entry_get_text]
  split_ifs with h
  · subst h
    rfl
  · rfl
  · rfl

/-- The two title labels `file_list_ready_cb` packs, in terms of the texts
chosen by `file_list_ready_cb_labels`. -/
theorem file_list_ready_cb_titles_vbox (env : Env) (files : List PeonyFile)
    (fcd : PeonyFileConflictDialog) :
    (file_list_ready_cb env files fcd).details.titles_vbox =
      fcd.details.titles_vbox ++
        [BoxChild.widget (gtk_widget_show (gtk_label_new
          (file_list_ready_cb_labels (env.peony_file_is_directory (g_list_nth_data files 1))
            (env.peony_file_is_directory (g_list_nth_data files 2))
            (env.peony_file_get_mtime (g_list_nth_data files 2))
            (env.peony_file_get_mtime (g_list_nth_data files 1))
            (env.peony_file_get_display_name (g_list_nth_data files 1))
            (env.peony_file_get_display_name (g_list_nth_data files 0))).1)),
         BoxChild.widget (gtk_widget_show (gtk_label_new
          ((file_list_ready_cb_labels (env.peony_file_is_directory (g_list_nth_data files 1))
            (env.peony_file_is_directory (g_list_nth_data files 2))
            (env.peony_file_get_mtime (g_list_nth_data files 2))
            (env.peony_file_get_mtime (g_list_nth_data files 1))
            (env.peony_file_get_display_name (g_list_nth_data files 1))
            (env.peony_file_get_display_name (g_list_nth_data files 0))).2.1 ++ "\n" ++
           (file_list_ready_cb_labels (env.peony_file_is_directory (g_list_nth_data files 1))
            (env.peony_file_is_directory (g_list_nth_data files 2))
            (env.peony_file_get_mtime (g_list_nth_data files 2))
            (env.peony_file_get_mtime (g_list_nth_data files 1))
            (env.peony_file_get_display_name (g_list_nth_data files 1))
            (env.peony_file_get_display_name (g_list_nth_data files 0))).2.2)))] := by
  simp only [file_list_ready_cb, g_signal_connect_details, peony_file_monitor_add_details,
    gtk_entry_set_text_some, List.append_assoc, List.singleton_append]

theorem g_list_nth_data_triple (a b c : PeonyFile) :
    g_list_nth_data [a, b, c] 0 = some a ∧ g_list_nth_data [a, b, c] 1 = some b ∧
      g_list_nth_data [a, b, c] 2 = some c :=
  ⟨rfl, rfl, rfl⟩

theorem string_head_ne (a b : String) (h : a.data.head? ≠ b.data.head?) : a ≠ b := by
  intro hab
  exact h (by rw [hab])

theorem file_list_ready_cb_entry_text (env : Env) (files : List PeonyFile)
    (fcd : PeonyFileConflictDialog) :
    (file_list_ready_cb env files fcd).details.entry.text =
      env.peony_file_get_edit_name (g_list_nth_data files 1) := by
  simp only [file_list_ready_cb, g_signal_connect_details, peony_file_monitor_add_details,
    gtk_entry_set_text_some]

theorem file_list_ready_cb_conflict_name (env : Env) (files : List PeonyFile)
    (fcd : PeonyFileConflictDialog) :
    (file_list_ready_cb env files fcd).details.conflict_name =
      some (env.peony_file_get_edit_name (g_list_nth_data files 1)) := by
  simp only [file_list_ready_cb, g_signal_connect_details, peony_file_monitor_add_details,
    gtk_entry_set_text_some]

/-! ### Occurrences of a word -/

theorem words_from_append_sep (c : Char) (hc : c.isAlphanum = false) (cur a b : List Char) :
    words_from cur (a ++ c :: b) = words_from cur a ++ words_from [] b := by
  induction a generalizing cur with
  | nil => simp [words_from, hc]
  | cons y a ih =>
    by_cases hy : y.isAlphanum = true
    · show words_from cur (y :: (a ++ c :: b)) = words_from cur (y :: a) ++ words_from [] b
      simp only [words_from, hy, if_true, ih]
    · show words_from cur (y :: (a ++ c :: b)) = words_from cur (y :: a) ++ words_from [] b
      simp only [words_from, hy, if_false, ih, List.append_assoc, Bool.false_eq_true]

/-- A word occurs in `pre ++ name ++ suf`, where `pre` ends and `suf` starts
with a double quote, exactly when it occurs in one of the three parts. -/
theorem contains_word_quoted (w name pre suf : String) (P S : List Char)
    (hpre : pre.data = P ++ ['"']) (hsuf : suf.data = '"' :: S) :
    contains_word (pre ++ name ++ suf) w =
      (decide (w.data ∈ text_words P) || (contains_word name w ||
        decide (w.data ∈ text_words S))) := by
  unfold contains_word text_words
  simp only [String.data_append, hpre, hsuf, List.append_assoc, List.singleton_append,
    List.cons_append, List.nil_append]
  rw [words_from_append_sep '"' (by decide), words_from_append_sep '"' (by decide)]
  simp only [List.mem_append, Bool.decide_or]

/-- The sentence `pre ++ name ++ "\"."`, `pre` ending with a double quote,
contains a word that `pre` has. -/
theorem contains_word_of_wording (w name pre : String) (P : List Char)
    (hpre : pre.data = P ++ ['"']) (hw : decide (w.data ∈ text_words P) = true) :
    contains_word (pre ++ name ++ "\".") w = true := by
  rw [contains_word_quoted w name pre "\"." P ['.'] hpre (by decide), hw]
  rfl

/-- The sentence `pre ++ name ++ "\"."`, `pre` ending with a double quote,
contains a word that `pre` lacks exactly when `name` contains it. -/
theorem contains_word_of_name (w name pre : String) (P : List Char)
    (hpre : pre.data = P ++ ['"']) (hw : decide (w.data ∈ text_words P) = false)
    (hdot : decide (w.data ∈ text_words ['.']) = false) :
    contains_word (pre ++ name ++ "\".") w = contains_word name w := by
  rw [contains_word_quoted w name pre "\"." P ['.'] hpre (by decide), hw, hdot]
  simp

/-! ### The two branches of `entry_text_changed_cb` -/

theorem entry_text_changed_cb_replace_branch (dialog : PeonyFileConflictDialog)
    (h : dialog.details.entry.text = "" ∨
      some dialog.details.entry.text = dialog.details.conflict_name) :
    entry_text_changed_cb dialog =
      { dialog with
        details := { dialog.details with
          rename_button := gtk_widget_hide dialog.details.rename_button
          replace_button := gtk_widget_show dialog.details.replace_button
          checkbox := gtk_widget_set_sensitive dialog.details.checkbox true }
        default_response := some ResponseId.CONFLICT_RESPONSE_REPLACE } := by
  have hcond : ¬ (g_strcmp0 (some (gtk_entry_get_text dialog.details.entry)) (some "") ≠ 0 ∧
      g_strcmp0 (some (gtk_entry_get_text dialog.details.entry))
        dialog.details.conflict_name ≠ 0) := by
    rintro ⟨h1, h2⟩
    rcases h with h | h
    · exact h1 ((g_strcmp0_eq_zero _ _).2 h)
    · rw [← h] at h2
      exact h2 ((g_strcmp0_eq_zero _ _).2 rfl)
  unfold entry_text_changed_cb
  simp only [if_neg hcond]
  rfl

theorem entry_text_changed_cb_rename_branch (dialog : PeonyFileConflictDialog)
    (hne : dialog.details.entry.text ≠ "")
    (hdiff : some dialog.details.entry.text ≠ dialog.details.conflict_name) :
    entry_text_changed_cb dialog =
      { dialog with
        details := { dialog.details with
          replace_button := gtk_widget_hide dialog.details.replace_button
          rename_button := gtk_widget_show dialog.details.rename_button
          checkbox := gtk_widget_set_sensitive dialog.details.checkbox false }
        default_response := some ResponseId.CONFLICT_RESPONSE_RENAME } := by
  have hcond : g_strcmp0 (some (gtk_entry_get_text dialog.details.entry)) (some "") ≠ 0 ∧
      g_strcmp0 (some (gtk_entry_get_text dialog.details.entry))
        dialog.details.conflict_name ≠ 0 := by
    refine ⟨fun h0 => hne ((g_strcmp0_eq_zero _ _).1 h0), ?_⟩
    cases hc : dialog.details.conflict_name with
    | none => exact g_strcmp0_null_ne_zero _
    | some c =>
      intro h0
      apply hdiff
      rw [hc]
      exact congrArg some ((g_strcmp0_eq_zero _ _).1 h0)
  unfold entry_text_changed_cb
  simp only [if_pos hcond]
  rfl

/-! ### The two branches of `checkbox_toggled_cb` -/

theorem custom_name_iff (t : String) (cn : Option String) :
    (g_strcmp0 (some t) (some "") ≠ 0 ∧ g_strcmp0 (some t) cn ≠ 0) ↔
      (t ≠ "" ∧ some t ≠ cn) := by
  have h1 : g_strcmp0 (some t) (some "") ≠ 0 ↔ t ≠ "" := not_congr (g_strcmp0_eq_zero t "")
  have h2 : g_strcmp0 (some t) cn ≠ 0 ↔ some t ≠ cn := by
    cases cn with
    | none => simp [g_strcmp0_null_ne_zero]
    | some c =>
      rw [ne_eq, ne_eq, g_strcmp0_eq_zero, Option.some.injEq]
  rw [h1, h2]

theorem entry_text_changed_cb_cases (dialog : PeonyFileConflictDialog) :
    ((dialog.details.entry.text ≠ "" ∧
        some dialog.details.entry.text ≠ dialog.details.conflict_name) ∧
      entry_text_changed_cb dialog =
        { dialog with
          details := { dialog.details with
            replace_button := gtk_widget_hide dialog.details.replace_button
            rename_button := gtk_widget_show dialog.details.rename_button
            checkbox := gtk_widget_set_sensitive dialog.details.checkbox false }
          default_response := some ResponseId.CONFLICT_RESPONSE_RENAME }) ∨
    (¬ (dialog.details.entry.text ≠ "" ∧
        some dialog.details.entry.text ≠ dialog.details.conflict_name) ∧
      entry_text_changed_cb dialog =
        { dialog with
          details := { dialog.details with
            rename_button := gtk_widget_hide dialog.details.rename_button
            replace_button := gtk_widget_show dialog.details.replace_button
            checkbox := gtk_widget_set_sensitive dialog.details.checkbox true }
          default_response := some ResponseId.CONFLICT_RESPONSE_REPLACE }) := by
  by_cases h : dialog.details.entry.text ≠ "" ∧
      some dialog.details.entry.text ≠ dialog.details.conflict_name
  · exact Or.inl ⟨h, entry_text_changed_cb_rename_branch dialog h.1 h.2⟩
  · refine Or.inr ⟨h, entry_text_changed_cb_replace_branch dialog ?_⟩
    by_contra hc
    exact h ⟨fun h1 => hc (Or.inl h1), fun h2 => hc (Or.inr h2)⟩

theorem checkbox_toggled_cb_rename_branch (dialog : PeonyFileConflictDialog)
    (hinactive : dialog.details.checkbox.active = false)
    (hne : dialog.details.entry.text ≠ "")
    (hdiff : some dialog.details.entry.text ≠ dialog.details.conflict_name) :
    checkbox_toggled_cb dialog =
      { dialog with
        details := { dialog.details with
          expander := gtk_widget_set_sensitive dialog.details.expander true
          replace_button := gtk_widget_hide dialog.details.replace_button
          rename_button :=
            gtk_widget_show (gtk_widget_set_sensitive dialog.details.rename_button true) } } := by
  have hcond := (custom_name_iff dialog.details.entry.text dialog.details.conflict_name).2
    ⟨hne, hdiff⟩
  unfold checkbox_toggled_cb
  simp only [gtk_toggle_button_get_active, gtk_entry_get_text, hinactive, Bool.not_false,
    true_and, if_pos hcond]

theorem checkbox_toggled_cb_replace_branch (dialog : PeonyFileConflictDialog)
    (h : ¬ (dialog.details.checkbox.active = false ∧ dialog.details.entry.text ≠ "" ∧
      some dialog.details.entry.text ≠ dialog.details.conflict_name)) :
    checkbox_toggled_cb dialog =
      { dialog with
        details := { dialog.details with
          expander :=
            gtk_widget_set_sensitive dialog.details.expander (!dialog.details.checkbox.active)
          rename_button :=
            gtk_widget_hide
              (gtk_widget_set_sensitive dialog.details.rename_button
                (!dialog.details.checkbox.active))
          replace_button := gtk_widget_show dialog.details.replace_button } } := by
  have hcond : ¬ ((!dialog.details.checkbox.active) = true ∧
      g_strcmp0 (some (gtk_entry_get_text dialog.details.entry)) (some "") ≠ 0 ∧
      g_strcmp0 (some (gtk_entry_get_text dialog.details.entry))
        dialog.details.conflict_name ≠ 0) := by
    rintro ⟨ha, hc⟩
    have hc2 := (custom_name_iff _ _).1 hc
    apply h
    refine ⟨?_, hc2⟩
    simpa using ha
  unfold checkbox_toggled_cb
  simp only [gtk_toggle_button_get_active, if_neg hcond]

/-! ### Invariants of the reachable states -/

theorem file_list_ready_cb_expander (env : Env) (files : List PeonyFile)
    (fcd : PeonyFileConflictDialog) :
    (file_list_ready_cb env files fcd).details.expander = fcd.details.expander := by
  simp only [file_list_ready_cb, g_signal_connect_details, peony_file_monitor_add_details,
    gtk_entry_set_text_some]

theorem file_list_ready_cb_checkbox_active (env : Env) (files : List PeonyFile)
    (fcd : PeonyFileConflictDialog) :
    (file_list_ready_cb env files fcd).details.checkbox.active =
      fcd.details.checkbox.active := by
  simp only [file_list_ready_cb, g_signal_connect_details, peony_file_monitor_add_details,
    gtk_entry_set_text_some]
  split_ifs <;> rfl

theorem file_list_ready_cb_rename_sensitive (env : Env) (files : List PeonyFile)
    (fcd : PeonyFileConflictDialog) :
    (file_list_ready_cb env files fcd).details.rename_button.sensitive =
      fcd.details.rename_button.sensitive := by
  simp only [file_list_ready_cb, g_signal_connect_details, peony_file_monitor_add_details,
    gtk_entry_set_text_some]
  split_ifs <;> rfl

theorem reset_button_clicked_cb_details (env : Env) (dialog : PeonyFileConflictDialog) :
    (reset_button_clicked_cb env dialog).details =
      (gtk_entry_set_text dialog dialog.details.conflict_name).details := rfl

theorem gtk_entry_set_text_conflict_name_details (dialog : PeonyFileConflictDialog) :
    (gtk_entry_set_text dialog dialog.details.conflict_name).details.expander =
        dialog.details.expander ∧
    (gtk_entry_set_text dialog dialog.details.conflict_name).details.checkbox.active =
        dialog.details.checkbox.active ∧
    (gtk_entry_set_text dialog dialog.details.conflict_name).details.rename_button.sensitive =
        dialog.details.rename_button.sensitive ∧
    (gtk_entry_set_text dialog dialog.details.conflict_name).details.conflict_name =
        dialog.details.conflict_name ∧
    ((gtk_entry_set_text dialog dialog.details.conflict_name).details.entry.text =
        dialog.details.entry.text ∧
      (gtk_entry_set_text dialog dialog.details.conflict_name).details.checkbox.sensitive =
        dialog.details.checkbox.sensitive ∨
      some (gtk_entry_set_text dialog dialog.details.conflict_name).details.entry.text =
        dialog.details.conflict_name) := by
  cases hc : dialog.details.conflict_name with
  | none => exact ⟨rfl, rfl, rfl, hc, Or.inl ⟨rfl, rfl⟩⟩
  | some c =>
    rw [gtk_entry_set_text_some]
    refine ⟨rfl, ?_, ?_, hc, Or.inr rfl⟩
    · simp only []
      split_ifs <;> rfl
    · simp only []
      split_ifs <;> rfl

/-- In every state reached through sensitive widgets: the expander is sensitive
exactly when the checkbox is inactive, and a sensitive checkbox, like an active
one, goes with an entry that is empty or holds `conflict_name`. -/
theorem reachable_invariant (d : PeonyFileConflictDialog) (h : reachable d) :
    d.details.expander.sensitive = (!d.details.checkbox.active) ∧
    (d.details.checkbox.sensitive = true →
      ¬ (d.details.entry.text ≠ "" ∧ some d.details.entry.text ≠ d.details.conflict_name)) ∧
    (d.details.checkbox.active = true →
      ¬ (d.details.entry.text ≠ "" ∧ some d.details.entry.text ≠ d.details.conflict_name)) := by
  induction h with
  | init fcd _ =>
    refine ⟨rfl, ?_, ?_⟩ <;> intro _ hc <;> exact hc.1 rfl
  | file_list_ready env files d _ ih =>
    have hneg : ¬ ((file_list_ready_cb env files d).details.entry.text ≠ "" ∧
        some (file_list_ready_cb env files d).details.entry.text ≠
          (file_list_ready_cb env files d).details.conflict_name) := by
      rw [file_list_ready_cb_entry_text, file_list_ready_cb_conflict_name]
      exact fun hc => hc.2 rfl
    rw [file_list_ready_cb_expander, file_list_ready_cb_checkbox_active]
    exact ⟨ih.1, fun _ => hneg, fun _ => hneg⟩
  | edit text d _ hs ih =>
    have hA : d.details.checkbox.active = false := by
      have := ih.1
      rw [hs] at this
      simpa using this.symm
    unfold user_edit
    rcases entry_text_changed_cb_cases (with_entry_text d text) with ⟨_, he⟩ | ⟨hc, he⟩
    · rw [he]
      refine ⟨ih.1, fun hcs => ?_, fun ha => ?_⟩
      · exact absurd hcs (by simp [gtk_widget_set_sensitive])
      · have ha2 : d.details.checkbox.active = true := ha
        rw [hA] at ha2
        exact absurd ha2 (by decide)
    · rw [he]
      exact ⟨ih.1, fun _ => hc, fun _ => hc⟩
  | reset env d _ hs ih =>
    have hA : d.details.checkbox.active = false := by
      have := ih.1
      rw [hs] at this
      simpa using this.symm
    obtain ⟨h1, h2, _, h4, h5⟩ := gtk_entry_set_text_conflict_name_details d
    rw [reset_button_clicked_cb_details, h1, h2, h4]
    refine ⟨ih.1, fun hcs => ?_, fun ha => ?_⟩
    · rcases h5 with ⟨ht, hcs2⟩ | ht
      · rw [ht]
        exact ih.2.1 (hcs2 ▸ hcs)
      · exact fun hc => hc.2 ht
    · rw [hA] at ha
      exact absurd ha (by decide)
  | toggle d _ hs ih =>
    have hnc := ih.2.1 hs
    unfold user_toggle
    rw [checkbox_toggled_cb_replace_branch
      (with_checkbox_active d (!d.details.checkbox.active)) (fun hc => hnc hc.2)]
    exact ⟨rfl, fun _ => hnc, fun _ => hnc⟩

/-- In every state reached by the events, sensitive widgets or not: the Rename
button and the expander are sensitive exactly when the checkbox is inactive. -/
theorem reachable_ungated_invariant (d : PeonyFileConflictDialog) (h : reachable_ungated d) :
    d.details.rename_button.sensitive = (!d.details.checkbox.active) ∧
    d.details.expander.sensitive = (!d.details.checkbox.active) := by
  induction h with
  | init fcd => exact ⟨rfl, rfl⟩
  | file_list_ready env files d _ ih =>
    rw [file_list_ready_cb_expander, file_list_ready_cb_checkbox_active,
      file_list_ready_cb_rename_sensitive]
    exact ih
  | edit text d _ ih =>
    unfold user_edit
    rcases entry_text_changed_cb_cases (with_entry_text d text) with ⟨_, he⟩ | ⟨_, he⟩ <;>
      rw [he] <;> exact ih
  | reset env d _ ih =>
    obtain ⟨h1, h2, h3, _, _⟩ := gtk_entry_set_text_conflict_name_details d
    rw [reset_button_clicked_cb_details, h1, h2, h3]
    exact ih
  | toggle d _ ih =>
    unfold user_toggle
    by_cases hc : (!d.details.checkbox.active) = false ∧ d.details.entry.text ≠ "" ∧
        some d.details.entry.text ≠ d.details.conflict_name
    · rw [checkbox_toggled_cb_rename_branch
        (with_checkbox_active d (!d.details.checkbox.active)) hc.1 hc.2.1 hc.2.2]
      simp only [with_checkbox_active, gtk_widget_show, gtk_widget_set_sensitive, hc.1]
      exact ⟨rfl, rfl⟩
    · rw [checkbox_toggled_cb_replace_branch
        (with_checkbox_active d (!d.details.checkbox.active)) hc]
      exact ⟨rfl, rfl⟩

/-! ### More of what `file_list_ready_cb` leaves behind -/

theorem peony_file_monitor_add_skip_button (file : Option PeonyFile)
    (fcd : PeonyFileConflictDialog) :
    (peony_file_monitor_add file fcd).skip_button = fcd.skip_button := by
  cases file <;> rfl

theorem g_signal_connect_skip_button (file : Option PeonyFile) (fcd : PeonyFileConflictDialog) :
    (g_signal_connect file fcd).1.skip_button = fcd.skip_button := by
  cases file <;> rfl

theorem file_list_ready_cb_skip_button (env : Env) (files : List PeonyFile)
    (fcd : PeonyFileConflictDialog) :
    (file_list_ready_cb env files fcd).skip_button = fcd.skip_button := by
  simp only [file_list_ready_cb, g_signal_connect_skip_button,
    peony_file_monitor_add_skip_button, gtk_entry_set_text_some]

theorem file_list_ready_cb_replace_button (env : Env) (files : List PeonyFile)
    (fcd : PeonyFileConflictDialog) :
    (file_list_ready_cb env files fcd).details.replace_button.label =
        (if env.peony_file_is_directory (g_list_nth_data files 2) = true ∧
            env.peony_file_is_directory (g_list_nth_data files 1) = true then "Merge"
          else fcd.details.replace_button.label) ∧
    (file_list_ready_cb env files fcd).details.replace_button.response_id =
        fcd.details.replace_button.response_id := by
  simp only [file_list_ready_cb, g_signal_connect_details, peony_file_monitor_add_details,
    gtk_entry_set_text_some]
  constructor <;> split_ifs <;> rfl

theorem file_list_ready_cb_diff_button (env : Env) (files : List PeonyFile)
    (fcd : PeonyFileConflictDialog) :
    (file_list_ready_cb env files fcd).details.diff_button.visible = true ↔
      env.peony_file_is_directory (g_list_nth_data files 2) = false ∧
      env.peony_file_is_directory (g_list_nth_data files 1) = false ∧
      (env.g_find_program_in_path "meld").isSome = true ∧
      env.peony_file_is_binary fcd.details.source = false ∧
      env.peony_file_is_binary fcd.details.destination = false := by
  simp only [file_list_ready_cb, g_signal_connect_details, peony_file_monitor_add_details,
    gtk_entry_set_text_some]
  cases env.peony_file_is_directory (g_list_nth_data files 2) <;>
    cases env.peony_file_is_directory (g_list_nth_data files 1) <;>
    cases env.g_find_program_in_path "meld" <;>
    cases env.peony_file_is_binary fcd.details.source <;>
    cases env.peony_file_is_binary fcd.details.destination <;>
    simp [gtk_widget_show, gtk_widget_hide]

theorem file_list_ready_cb_registrations (env : Env) (dest_dir dest src : PeonyFile)
    (fcd : PeonyFileConflictDialog) :
    (file_list_ready_cb env [dest_dir, dest, src] fcd).details.handle = none ∧
    (file_list_ready_cb env [dest_dir, dest, src] fcd).details.src_handler_id =
      fcd.handler_seq + 1 ∧
    (file_list_ready_cb env [dest_dir, dest, src] fcd).details.dest_handler_id =
      fcd.handler_seq + 1 + 1 ∧
    (file_list_ready_cb env [dest_dir, dest, src] fcd).details.source = fcd.details.source ∧
    (file_list_ready_cb env [dest_dir, dest, src] fcd).details.destination =
      fcd.details.destination ∧
    (file_list_ready_cb env [dest_dir, dest, src] fcd).details.dest_dir =
      fcd.details.dest_dir ∧
    (file_list_ready_cb env [dest_dir, dest, src] fcd).monitors =
      dest :: src :: fcd.monitors ∧
    (file_list_ready_cb env [dest_dir, dest, src] fcd).changed_handlers =
      (fcd.handler_seq + 1 + 1, dest) :: (fcd.handler_seq + 1, src) :: fcd.changed_handlers := by
  obtain ⟨h0, h1, h2⟩ := g_list_nth_data_triple dest_dir dest src
  simp only [file_list_ready_cb, h0, h1, h2, peony_file_monitor_add, g_signal_connect,
    gtk_entry_set_text_some, and_self]

/-! ### The default response in the reachable states -/

theorem gtk_entry_set_text_own_name (d : PeonyFileConflictDialog) (c : String)
    (hc : d.details.conflict_name = some c) :
    gtk_entry_set_text d (some c) = d ∨
      (d.details.entry.text ≠ c ∧
        gtk_entry_set_text d (some c) =
          { d with
            details := { d.details with
              entry := { d.details.entry with text := c }
              rename_button := gtk_widget_hide d.details.rename_button
              replace_button := gtk_widget_show d.details.replace_button
              checkbox := gtk_widget_set_sensitive d.details.checkbox true }
            default_response := some ResponseId.CONFLICT_RESPONSE_REPLACE }) := by
  by_cases ht : d.details.entry.text = c
  · left
    unfold gtk_entry_set_text
    simp only [if_pos ht]
  · right
    refine ⟨ht, ?_⟩
    unfold gtk_entry_set_text
    simp only [if_neg ht]
    exact entry_text_changed_cb_replace_branch _ (Or.inr hc.symm)

theorem file_list_ready_cb_default_response_cases (env : Env) (files : List PeonyFile)
    (d : PeonyFileConflictDialog) :
    ((file_list_ready_cb env files d).default_response = d.default_response ∧
      (file_list_ready_cb env files d).details.rename_button = d.details.rename_button ∧
      (file_list_ready_cb env files d).details.checkbox = d.details.checkbox) ∨
    (file_list_ready_cb env files d).default_response =
      some ResponseId.CONFLICT_RESPONSE_REPLACE := by
  have h0 : g_strcmp0 (some (env.peony_file_get_edit_name (g_list_nth_data files 1)))
      (some (env.peony_file_get_edit_name (g_list_nth_data files 1))) = 0 :=
    (g_strcmp0_eq_zero _ _).2 rfl
  simp only [file_list_ready_cb, g_signal_connect_details, peony_file_monitor_add_details,
    g_signal_connect_default_response, peony_file_monitor_add_default_response,
    gtk_entry_set_text_some, h0, ne_eq, not_true_eq_false, and_false, if_false]
  by_cases ht : d.details.entry.text = env.peony_file_get_edit_name (g_list_nth_data files 1)
  · left
    simp only [if_pos ht, and_self]
  · right
    simp only [if_neg ht]

theorem replace_ne_rename :
    some ResponseId.CONFLICT_RESPONSE_REPLACE ≠ some ResponseId.CONFLICT_RESPONSE_RENAME := by
  decide

theorem reset_button_clicked_cb_default_response (env : Env) (dialog : PeonyFileConflictDialog) :
    (reset_button_clicked_cb env dialog).default_response =
      (gtk_entry_set_text dialog dialog.details.conflict_name).default_response := rfl

/-- In every state reached through sensitive widgets, a default response
`CONFLICT_RESPONSE_RENAME` goes with a visible Rename button and an insensitive
checkbox. -/
theorem reachable_default_response (d : PeonyFileConflictDialog) (h : reachable d)
    (hdr : d.default_response = some ResponseId.CONFLICT_RESPONSE_RENAME) :
    d.details.rename_button.visible = true ∧ d.details.checkbox.sensitive = false := by
  induction h with
  | init fcd hfresh =>
    have : (peony_file_conflict_dialog_init fcd).default_response = fcd.default_response := rfl
    rw [this, hfresh] at hdr
    exact absurd hdr (by decide)
  | file_list_ready env files d _ ih =>
    rcases file_list_ready_cb_default_response_cases env files d with ⟨h1, h2, h3⟩ | h1
    · rw [h2, h3]
      exact ih (h1 ▸ hdr)
    · rw [h1] at hdr
      exact absurd hdr replace_ne_rename
  | edit text d _ _ _ =>
    unfold user_edit at hdr ⊢
    rcases entry_text_changed_cb_cases (with_entry_text d text) with ⟨_, he⟩ | ⟨_, he⟩
    · rw [he]
      exact ⟨rfl, rfl⟩
    · rw [he] at hdr
      exact absurd hdr replace_ne_rename
  | reset env d _ _ ih =>
    rw [reset_button_clicked_cb_default_response] at hdr
    rw [reset_button_clicked_cb_details]
    cases hc : d.details.conflict_name with
    | none =>
      rw [hc] at hdr
      exact ih hdr
    | some c =>
      rw [hc] at hdr
      rcases gtk_entry_set_text_own_name d c hc with h1 | ⟨_, h1⟩
      · rw [h1] at hdr ⊢
        exact ih hdr
      · rw [h1] at hdr
        exact absurd hdr replace_ne_rename
  | toggle d _ hs ih =>
    have hdr2 : d.default_response = some ResponseId.CONFLICT_RESPONSE_RENAME := by
      unfold user_toggle checkbox_toggled_cb at hdr
      simp only [] at hdr
      split_ifs at hdr <;> exact hdr
    have := (ih hdr2).2
    rw [hs] at this
    exact absurd this (by decide)

/-! ### The desktop window's invariant -/

theorem background_changed_frame (screen : GdkScreen) (window : PeonyDesktopWindow) :
    (background_changed screen window).root_filter = window.root_filter ∧
    (background_changed screen window).details.composited = window.details.composited := by
  unfold background_changed
  cases window.details.surface <;> exact ⟨rfl, rfl⟩

theorem peony_desktop_window_composited_changed_invariant (screen : GdkScreen)
    (window : PeonyDesktopWindow)
    (h : window.root_filter = (!window.details.composited) ∧
      (window.details.composited = true → window.details.surface = none)) :
    (peony_desktop_window_composited_changed screen window).root_filter =
      (!(peony_desktop_window_composited_changed screen window).details.composited) ∧
    ((peony_desktop_window_composited_changed screen window).details.composited = true →
      (peony_desktop_window_composited_changed screen window).details.surface = none) := by
  unfold peony_desktop_window_composited_changed
  by_cases heq : window.details.composited = screen.is_composited
  · simp only [if_pos heq]
    exact h
  · simp only [if_neg heq]
    cases hc : screen.is_composited
    · simp only [Bool.false_eq_true, if_false]
      obtain ⟨h1, h2⟩ := background_changed_frame screen
        (gdk_window_add_filter
          { window with
            details := { window.details with composited := false }
            root_property_change := true })
      rw [h1, h2]
      exact ⟨rfl, fun hf => absurd hf Bool.false_ne_true⟩
    · simp only [if_true]
      cases window.details.surface <;> exact ⟨rfl, fun _ => rfl⟩

theorem peony_desktop_window_finalize_result (window : PeonyDesktopWindow) :
    (peony_desktop_window_finalize window).details.surface = none ∧
    (peony_desktop_window_finalize window).root_filter =
      (window.details.composited && window.root_filter) := by
  obtain ⟨⟨size_changed_id, loaded, composited, surface⟩, root_filter, root_property_change,
    destroyed, queued_draws⟩ := window
  cases composited <;> cases surface <;> exact ⟨rfl, rfl⟩

/-- In every state a desktop window reaches, `filter_func` is on the root
window's filter list exactly when `composited` is `FALSE`, and a composited
window keeps no surface. -/
theorem desktop_reachable_invariant (window : PeonyDesktopWindow)
    (h : desktop_reachable window) :
    window.root_filter = (!window.details.composited) ∧
    (window.details.composited = true → window.details.surface = none) := by
  induction h with
  | init screen window hsurface hfilter =>
    unfold peony_desktop_window_init
    exact peony_desktop_window_composited_changed_invariant screen _ ⟨hfilter, fun _ => hsurface⟩
  | composited_changed screen window _ ih =>
    exact peony_desktop_window_composited_changed_invariant screen window ih
  | filter screen xev window _ hinstalled ih =>
    have hc : window.details.composited = false := by
      have := ih.1
      rw [hinstalled] at this
      cases hcomp : window.details.composited
      · rfl
      · rw [hcomp] at this
        exact absurd this (by decide)
    have hframe : (filter_func screen xev window).1.root_filter = window.root_filter ∧
        (filter_func screen xev window).1.details.composited = window.details.composited := by
      unfold filter_func
      split_ifs
      · exact ⟨rfl, rfl⟩
      · exact ⟨rfl, rfl⟩
      · exact background_changed_frame screen window
    rw [hframe.1, hframe.2]
    refine ⟨ih.1, fun hf => ?_⟩
    rw [hc] at hf
    exact absurd hf (by decide)

/-! ## Classification (C1) -/

/-- C1: the primary text built by `file_list_ready_cb` is the Merge form iff
destination and source are both directories, the "Replace folder" form iff the
destination is a directory and the source is not, and the "Replace file" form
iff the destination is not a directory. -/
theorem file_list_ready_cb_message_kind (env : Env) (dest_dir dest src : PeonyFile)
    (fcd : PeonyFileConflictDialog) :
    ∃ primary_text secondary_text : String,
      (file_list_ready_cb env [dest_dir, dest, src] fcd).details.titles_vbox =
        fcd.details.titles_vbox ++
          [BoxChild.widget (gtk_widget_show (gtk_label_new primary_text)),
           BoxChild.widget (gtk_widget_show (gtk_label_new secondary_text))] ∧
      (primary_text = "Merge folder \"" ++ env.peony_file_get_display_name (some dest) ++ "\"?" ↔
        env.peony_file_is_directory (some dest) = true ∧
          env.peony_file_is_directory (some src) = true) ∧
      (primary_text = "Replace folder \"" ++ env.peony_file_get_display_name (some dest) ++ "\"?" ↔
        env.peony_file_is_directory (some dest) = true ∧
          env.peony_file_is_directory (some src) = false) ∧
      (primary_text = "Replace file \"" ++ env.peony_file_get_display_name (some dest) ++ "\"?" ↔
        env.peony_file_is_directory (some dest) = false) := by
  refine ⟨_, _, file_list_ready_cb_titles_vbox env [dest_dir, dest, src] fcd, ?_⟩
  obtain ⟨h0, h1, h2⟩ := g_list_nth_data_triple dest_dir dest src
  rw [h0, h1, h2]
  have hMF : ∀ n : String, "Merge folder \"" ++ n ++ "\"?" ≠ "Replace folder \"" ++ n ++ "\"?" :=
    fun n => string_head_ne _ _ (by simp)
  have hMR : ∀ n : String, "Merge folder \"" ++ n ++ "\"?" ≠ "Replace file \"" ++ n ++ "\"?" :=
    fun n => string_head_ne _ _ (by simp)
  have hFR : ∀ n : String, "Replace folder \"" ++ n ++ "\"?" ≠ "Replace file \"" ++ n ++ "\"?" := by
    intro n h
    have := congrArg (fun s => s.data.get? 9) h
    simp at this
  cases hd : env.peony_file_is_directory (some dest) <;>
    cases hs : env.peony_file_is_directory (some src) <;>
    simp only [file_list_ready_cb_labels, Bool.false_eq_true, if_true, if_false] <;>
    (try split_ifs) <;>
    simp [hMF, hMR, hFR, Ne.symm (hMF _), Ne.symm (hMR _), Ne.symm (hFR _)]

/-! ## Wording by age (C2, C3) -/

/-- C2, as stated, fails at its own example (destination mtime 100, source
mtime 200, both files): the message built there reads "An older file ..." and
the word "newer" occurs in neither label. -/
theorem file_list_ready_cb_newer_source_says_older :
    box_label_texts
        (file_list_ready_cb (conflict_env "Documents" "notes.txt" "notes.txt" false false 100 200)
          [0, 1, 2] (sample_dialog false)).details.titles_vbox =
      ["Replace file \"notes.txt\"?",
       "An older file with the same name already exists in \"Documents\"." ++ "\n" ++
         "Replacing it will overwrite its content."] ∧
    ∀ text ∈ box_label_texts
        (file_list_ready_cb (conflict_env "Documents" "notes.txt" "notes.txt" false false 100 200)
          [0, 1, 2] (sample_dialog false)).details.titles_vbox,
      contains_word text "newer" = false := by
  decide

/-- C2, amended: when the destination is not a directory, the message names the
age of the existing destination file. A source with the greater mtime gives
"An older file with the same name already exists in ...", which contains
"older" (and "newer" only if the directory name does); a source with the
smaller mtime gives "A newer file ...", which contains "newer" (and "older"
only if the directory name does). -/
theorem file_list_ready_cb_age_phrase (env : Env) (dest_dir dest src : PeonyFile)
    (fcd : PeonyFileConflictDialog)
    (hd : env.peony_file_is_directory (some dest) = false) :
    ∃ message : String,
      (file_list_ready_cb env [dest_dir, dest, src] fcd).details.titles_vbox =
        fcd.details.titles_vbox ++
          [BoxChild.widget (gtk_widget_show (gtk_label_new
            ("Replace file \"" ++ env.peony_file_get_display_name (some dest) ++ "\"?"))),
           BoxChild.widget (gtk_widget_show (gtk_label_new
            (message ++ "\n" ++ "Replacing it will overwrite its content.")))] ∧
      (env.peony_file_get_mtime (some src) > env.peony_file_get_mtime (some dest) →
        message = "An older file with the same name already exists in \"" ++
            env.peony_file_get_display_name (some dest_dir) ++ "\"." ∧
          contains_word message "older" = true ∧
          contains_word message "newer" =
            contains_word (env.peony_file_get_display_name (some dest_dir)) "newer") ∧
      (env.peony_file_get_mtime (some src) < env.peony_file_get_mtime (some dest) →
        message = "A newer file with the same name already exists in \"" ++
            env.peony_file_get_display_name (some dest_dir) ++ "\"." ∧
          contains_word message "newer" = true ∧
          contains_word message "older" =
            contains_word (env.peony_file_get_display_name (some dest_dir)) "older") := by
  refine ⟨(file_list_ready_cb_labels false (env.peony_file_is_directory (some src))
    (env.peony_file_get_mtime (some src)) (env.peony_file_get_mtime (some dest))
    (env.peony_file_get_display_name (some dest))
    (env.peony_file_get_display_name (some dest_dir))).2.1, ?_, ?_, ?_⟩
  · rw [file_list_ready_cb_titles_vbox]
    obtain ⟨h0, h1, h2⟩ := g_list_nth_data_triple dest_dir dest src
    rw [h0, h1, h2, hd]
    simp only [file_list_ready_cb_labels, Bool.false_eq_true, if_false]
    split_ifs <;> rfl
  · intro hgt
    simp only [file_list_ready_cb_labels, Bool.false_eq_true, if_false, if_pos hgt]
    exact ⟨trivial,
      contains_word_of_wording "older" _ _
        "An older file with the same name already exists in ".data (by decide) (by decide),
      contains_word_of_name "newer" _ _
        "An older file with the same name already exists in ".data (by decide) (by decide)
        (by decide)⟩
  · intro hlt
    have hngt : ¬ env.peony_file_get_mtime (some src) > env.peony_file_get_mtime (some dest) := by
      omega
    simp only [file_list_ready_cb_labels, Bool.false_eq_true, if_false, if_neg hngt, if_pos hlt]
    exact ⟨trivial,
      contains_word_of_wording "newer" _ _
        "A newer file with the same name already exists in ".data (by decide) (by decide),
      contains_word_of_name "older" _ _
        "A newer file with the same name already exists in ".data (by decide) (by decide)
        (by decide)⟩

/-- C2, amended, at the example of the specification: destination mtime 100,
source mtime 200, both files. -/
theorem file_list_ready_cb_age_phrase_witness :
    (conflict_env "Documents" "notes.txt" "notes.txt" false false 100 200).peony_file_is_directory
        (some 1) = false ∧
    ∃ message : String,
      (file_list_ready_cb (conflict_env "Documents" "notes.txt" "notes.txt" false false 100 200)
          [0, 1, 2] (sample_dialog false)).details.titles_vbox =
        (sample_dialog false).details.titles_vbox ++
          [BoxChild.widget (gtk_widget_show (gtk_label_new ("Replace file \"" ++ "notes.txt" ++ "\"?"))),
           BoxChild.widget (gtk_widget_show (gtk_label_new
            (message ++ "\n" ++ "Replacing it will overwrite its content.")))] ∧
      (((200 : Int) > 100) →
        message = "An older file with the same name already exists in \"" ++ "Documents" ++ "\"." ∧
          contains_word message "older" = true ∧
          contains_word message "newer" = contains_word "Documents" "newer") ∧
      (((200 : Int) < 100) →
        message = "A newer file with the same name already exists in \"" ++ "Documents" ++ "\"." ∧
          contains_word message "newer" = true ∧
          contains_word message "older" = contains_word "Documents" "older") :=
  ⟨rfl, file_list_ready_cb_age_phrase
    (conflict_env "Documents" "notes.txt" "notes.txt" false false 100 200) 0 1 2
    (sample_dialog false) rfl⟩

/-- C3, as stated, fails when the destination directory is itself called
"older": with equal mtimes the neutral message quotes that name, so the message
contains the word "older". -/
theorem file_list_ready_cb_equal_mtime_quotes_older :
    box_label_texts
        (file_list_ready_cb (conflict_env "older" "notes.txt" "notes.txt" false false 100 100)
          [0, 1, 2] (sample_dialog false)).details.titles_vbox =
      ["Replace file \"notes.txt\"?",
       "Another file with the same name already exists in \"older\"." ++ "\n" ++
         "Replacing it will overwrite its content."] ∧
    contains_word "Another file with the same name already exists in \"older\"." "older" = true := by
  decide

/-- C3, amended: with equal mtimes, file against file or folder against folder,
the message is the neutral sentence "Another file (folder) with the same name
already exists in" followed by the quoted name of the destination directory;
the words "older" and "newer" occur in it only where they occur in that
directory name. -/
theorem file_list_ready_cb_equal_mtime_neutral (env : Env) (dest_dir dest src : PeonyFile)
    (fcd : PeonyFileConflictDialog)
    (hm : env.peony_file_get_mtime (some src) = env.peony_file_get_mtime (some dest))
    (hk : env.peony_file_is_directory (some src) = env.peony_file_is_directory (some dest)) :
    ∃ primary_text message message_extra : String,
      (file_list_ready_cb env [dest_dir, dest, src] fcd).details.titles_vbox =
        fcd.details.titles_vbox ++
          [BoxChild.widget (gtk_widget_show (gtk_label_new primary_text)),
           BoxChild.widget (gtk_widget_show (gtk_label_new
            (message ++ "\n" ++ message_extra)))] ∧
      ((env.peony_file_is_directory (some dest) = false ∧
          message = "Another file with the same name already exists in \"" ++
            env.peony_file_get_display_name (some dest_dir) ++ "\".") ∨
        (env.peony_file_is_directory (some dest) = true ∧
          message = "Another folder with the same name already exists in \"" ++
            env.peony_file_get_display_name (some dest_dir) ++ "\".")) ∧
      contains_word message "older" =
        contains_word (env.peony_file_get_display_name (some dest_dir)) "older" ∧
      contains_word message "newer" =
        contains_word (env.peony_file_get_display_name (some dest_dir)) "newer" := by
  refine ⟨_, _, _, file_list_ready_cb_titles_vbox env [dest_dir, dest, src] fcd, ?_⟩
  obtain ⟨h0, h1, h2⟩ := g_list_nth_data_triple dest_dir dest src
  rw [h0, h1, h2, hk, hm]
  cases hdir : env.peony_file_is_directory (some dest)
  · simp only [file_list_ready_cb_labels, Bool.false_eq_true, if_false, gt_iff_lt, lt_self_iff_false]
    exact ⟨Or.inl ⟨trivial, trivial⟩,
      contains_word_of_name "older" _ _
        "Another file with the same name already exists in ".data (by decide) (by decide)
        (by decide),
      contains_word_of_name "newer" _ _
        "Another file with the same name already exists in ".data (by decide) (by decide)
        (by decide)⟩
  · simp only [file_list_ready_cb_labels, if_true, gt_iff_lt, lt_self_iff_false, if_false]
    exact ⟨Or.inr ⟨trivial, trivial⟩,
      contains_word_of_name "older" _ _
        "Another folder with the same name already exists in ".data (by decide) (by decide)
        (by decide),
      contains_word_of_name "newer" _ _
        "Another folder with the same name already exists in ".data (by decide) (by decide)
        (by decide)⟩

/-- C3, amended, at two files of mtime 100 in a directory called "older". -/
theorem file_list_ready_cb_equal_mtime_neutral_witness :
    ∃ primary_text message message_extra : String,
      (file_list_ready_cb (conflict_env "older" "notes.txt" "notes.txt" false false 100 100)
          [0, 1, 2] (sample_dialog false)).details.titles_vbox =
        (sample_dialog false).details.titles_vbox ++
          [BoxChild.widget (gtk_widget_show (gtk_label_new primary_text)),
           BoxChild.widget (gtk_widget_show (gtk_label_new
            (message ++ "\n" ++ message_extra)))] ∧
      ((false = false ∧
          message = "Another file with the same name already exists in \"" ++ "older" ++ "\".") ∨
        (false = true ∧
          message = "Another folder with the same name already exists in \"" ++ "older" ++ "\".")) ∧
      contains_word message "older" = contains_word "older" "older" ∧
      contains_word message "newer" = contains_word "older" "newer" :=
  file_list_ready_cb_equal_mtime_neutral
    (conflict_env "older" "notes.txt" "notes.txt" false false 100 100) 0 1 2
    (sample_dialog false) rfl rfl

/-! ## Independence of the timestamps (C4) -/

theorem file_list_ready_cb_labels_primary (dest_is_dir source_is_dir : Bool)
    (src_mtime dest_mtime src_mtime' dest_mtime' : Int) (dest_name dest_dir_name : String) :
    (file_list_ready_cb_labels dest_is_dir source_is_dir src_mtime dest_mtime dest_name
        dest_dir_name).1 =
      (file_list_ready_cb_labels dest_is_dir source_is_dir src_mtime' dest_mtime' dest_name
        dest_dir_name).1 := by
  unfold file_list_ready_cb_labels
  split_ifs <;> rfl

theorem file_list_ready_cb_labels_extra (dest_is_dir source_is_dir : Bool)
    (src_mtime dest_mtime src_mtime' dest_mtime' : Int) (dest_name dest_dir_name : String) :
    (file_list_ready_cb_labels dest_is_dir source_is_dir src_mtime dest_mtime dest_name
        dest_dir_name).2.2 =
      (file_list_ready_cb_labels dest_is_dir source_is_dir src_mtime' dest_mtime' dest_name
        dest_dir_name).2.2 := by
  unfold file_list_ready_cb_labels
  split_ifs <;> rfl

/-- C4: the modification times (and the string attributes shown next to each
file, such as the date) do not affect the options offered. Two runs of
`file_list_ready_cb` that differ only in them pack the same primary text and a
secondary text with the same second sentence, and leave the same Replace/Merge
button (label, visibility), entry (text), stored `conflict_name`, Differences
button, Rename button, checkbox, expander and default response. -/
theorem file_list_ready_cb_mtime_independent (env : Env) (mtime : Option PeonyFile → Int)
    (string_attribute : Option PeonyFile → String → String) (files : List PeonyFile)
    (fcd : PeonyFileConflictDialog) :
    (∃ primary_text message message' message_extra : String,
      (file_list_ready_cb env files fcd).details.titles_vbox =
        fcd.details.titles_vbox ++
          [BoxChild.widget (gtk_widget_show (gtk_label_new primary_text)),
           BoxChild.widget (gtk_widget_show (gtk_label_new
            (message ++ "\n" ++ message_extra)))] ∧
      (file_list_ready_cb (with_mtimes env mtime string_attribute) files fcd).details.titles_vbox =
        fcd.details.titles_vbox ++
          [BoxChild.widget (gtk_widget_show (gtk_label_new primary_text)),
           BoxChild.widget (gtk_widget_show (gtk_label_new
            (message' ++ "\n" ++ message_extra)))]) ∧
    (file_list_ready_cb (with_mtimes env mtime string_attribute) files fcd).details.replace_button =
      (file_list_ready_cb env files fcd).details.replace_button ∧
    (file_list_ready_cb (with_mtimes env mtime string_attribute) files fcd).details.entry =
      (file_list_ready_cb env files fcd).details.entry ∧
    (file_list_ready_cb (with_mtimes env mtime string_attribute) files fcd).details.conflict_name =
      (file_list_ready_cb env files fcd).details.conflict_name ∧
    (file_list_ready_cb (with_mtimes env mtime string_attribute) files fcd).details.diff_button =
      (file_list_ready_cb env files fcd).details.diff_button ∧
    (file_list_ready_cb (with_mtimes env mtime string_attribute) files fcd).details.rename_button =
      (file_list_ready_cb env files fcd).details.rename_button ∧
    (file_list_ready_cb (with_mtimes env mtime string_attribute) files fcd).details.checkbox =
      (file_list_ready_cb env files fcd).details.checkbox ∧
    (file_list_ready_cb (with_mtimes env mtime string_attribute) files fcd).details.expander =
      (file_list_ready_cb env files fcd).details.expander ∧
    (file_list_ready_cb (with_mtimes env mtime string_attribute) files fcd).default_response =
      (file_list_ready_cb env files fcd).default_response := by
  have h1 := file_list_ready_cb_titles_vbox env files fcd
  have h2 := file_list_ready_cb_titles_vbox (with_mtimes env mtime string_attribute) files fcd
  rw [show (with_mtimes env mtime string_attribute).peony_file_is_directory =
        env.peony_file_is_directory from rfl,
    show (with_mtimes env mtime string_attribute).peony_file_get_display_name =
        env.peony_file_get_display_name from rfl,
    file_list_ready_cb_labels_primary _ _ _ _
      (env.peony_file_get_mtime (g_list_nth_data files 2))
      (env.peony_file_get_mtime (g_list_nth_data files 1)),
    file_list_ready_cb_labels_extra _ _ _ _
      (env.peony_file_get_mtime (g_list_nth_data files 2))
      (env.peony_file_get_mtime (g_list_nth_data files 1))] at h2
  refine ⟨⟨_, _, _, _, h1, h2⟩, ?_⟩
  simp only [file_list_ready_cb, with_mtimes, g_signal_connect_details,
    peony_file_monitor_add_details, g_signal_connect_default_response,
    peony_file_monitor_add_default_response, gtk_entry_set_text_some, and_self]

/-! ## The editable name (C5) -/

/-- C5, as stated, fails for a destination whose edit name differs from its
display name (a launcher shown as "Web Browser", stored as "firefox.desktop"):
the primary text shows the display name, the entry and `conflict_name` hold the
edit name. -/
theorem file_list_ready_cb_entry_not_display_name :
    (conflict_env "Desktop" "Web Browser" "firefox.desktop" false false 100 200).peony_file_get_display_name
        (some 1) = "Web Browser" ∧
    box_label_texts
        (file_list_ready_cb
          (conflict_env "Desktop" "Web Browser" "firefox.desktop" false false 100 200)
          [0, 1, 2] (sample_dialog false)).details.titles_vbox =
      ["Replace file \"Web Browser\"?",
       "An older file with the same name already exists in \"Desktop\"." ++ "\n" ++
         "Replacing it will overwrite its content."] ∧
    (file_list_ready_cb
        (conflict_env "Desktop" "Web Browser" "firefox.desktop" false false 100 200)
        [0, 1, 2] (sample_dialog false)).details.entry.text = "firefox.desktop" ∧
    (file_list_ready_cb
        (conflict_env "Desktop" "Web Browser" "firefox.desktop" false false 100 200)
        [0, 1, 2] (sample_dialog false)).details.conflict_name = some "firefox.desktop" ∧
    (file_list_ready_cb
        (conflict_env "Desktop" "Web Browser" "firefox.desktop" false false 100 200)
        [0, 1, 2] (sample_dialog false)).details.entry.text ≠
      (conflict_env "Desktop" "Web Browser" "firefox.desktop" false false 100 200).peony_file_get_display_name
        (some 1) := by
  decide

/-- C5, amended: after `file_list_ready_cb` the entry text, the stored
`conflict_name` and the value of `peony_file_conflict_dialog_get_new_name` are
the destination's edit name (`peony_file_get_edit_name`). They equal the
display name shown in the primary text exactly when the destination's edit
name and display name are the same. -/
theorem file_list_ready_cb_editable_name (env : Env) (dest_dir dest src : PeonyFile)
    (fcd : PeonyFileConflictDialog) :
    (file_list_ready_cb env [dest_dir, dest, src] fcd).details.entry.text =
      env.peony_file_get_edit_name (some dest) ∧
    (file_list_ready_cb env [dest_dir, dest, src] fcd).details.conflict_name =
      some (env.peony_file_get_edit_name (some dest)) ∧
    peony_file_conflict_dialog_get_new_name (file_list_ready_cb env [dest_dir, dest, src] fcd) =
      env.peony_file_get_edit_name (some dest) ∧
    ((file_list_ready_cb env [dest_dir, dest, src] fcd).details.entry.text =
        env.peony_file_get_display_name (some dest) ↔
      env.peony_file_get_edit_name (some dest) = env.peony_file_get_display_name (some dest)) := by
  have ht := file_list_ready_cb_entry_text env [dest_dir, dest, src] fcd
  have hc := file_list_ready_cb_conflict_name env [dest_dir, dest, src] fcd
  rw [(g_list_nth_data_triple dest_dir dest src).2.1] at ht hc
  refine ⟨ht, hc, ht, ?_⟩
  rw [ht]

/-! ## The entry callback (C6, C7, C8) -/

/-- C6: if the entry is empty or holds `conflict_name`, then after
`entry_text_changed_cb` the Replace button is visible, the Rename button is
hidden, the checkbox is sensitive and the default response is
`CONFLICT_RESPONSE_REPLACE`. -/
theorem entry_text_changed_cb_offers_replace (dialog : PeonyFileConflictDialog)
    (h : dialog.details.entry.text = "" ∨
      some dialog.details.entry.text = dialog.details.conflict_name) :
    (entry_text_changed_cb dialog).details.replace_button.visible = true ∧
    (entry_text_changed_cb dialog).details.rename_button.visible = false ∧
    (entry_text_changed_cb dialog).details.checkbox.sensitive = true ∧
    (entry_text_changed_cb dialog).default_response =
      some ResponseId.CONFLICT_RESPONSE_REPLACE := by
  rw [entry_text_changed_cb_replace_branch dialog h]
  exact ⟨rfl, rfl, rfl, rfl⟩

/-- C6 at an entry holding the original name "notes.txt". -/
theorem entry_text_changed_cb_offers_replace_witness :
    (entry_text_changed_cb
        (with_entry_text (ready_dialog false) "notes.txt")).details.replace_button.visible = true ∧
    (entry_text_changed_cb
        (with_entry_text (ready_dialog false) "notes.txt")).details.rename_button.visible = false ∧
    (entry_text_changed_cb
        (with_entry_text (ready_dialog false) "notes.txt")).details.checkbox.sensitive = true ∧
    (entry_text_changed_cb
        (with_entry_text (ready_dialog false) "notes.txt")).default_response = some ResponseId.CONFLICT_RESPONSE_REPLACE :=
  entry_text_changed_cb_offers_replace (with_entry_text (ready_dialog false) "notes.txt")
    (Or.inr (by decide))

/-- C7: if the entry is non-empty and differs from `conflict_name`, then after
`entry_text_changed_cb` the Rename button is visible, the Replace button is
hidden, the checkbox is insensitive and the default response is
`CONFLICT_RESPONSE_RENAME`. -/
theorem entry_text_changed_cb_offers_rename (dialog : PeonyFileConflictDialog)
    (hne : dialog.details.entry.text ≠ "")
    (hdiff : some dialog.details.entry.text ≠ dialog.details.conflict_name) :
    (entry_text_changed_cb dialog).details.rename_button.visible = true ∧
    (entry_text_changed_cb dialog).details.replace_button.visible = false ∧
    (entry_text_changed_cb dialog).details.checkbox.sensitive = false ∧
    (entry_text_changed_cb dialog).default_response =
      some ResponseId.CONFLICT_RESPONSE_RENAME := by
  rw [entry_text_changed_cb_rename_branch dialog hne hdiff]
  exact ⟨rfl, rfl, rfl, rfl⟩

/-- C7 at an entry holding "newname" where the original name is "notes.txt". -/
theorem entry_text_changed_cb_offers_rename_witness :
    (entry_text_changed_cb
        (with_entry_text (ready_dialog false) "newname")).details.rename_button.visible = true ∧
    (entry_text_changed_cb
        (with_entry_text (ready_dialog false) "newname")).details.replace_button.visible = false ∧
    (entry_text_changed_cb
        (with_entry_text (ready_dialog false) "newname")).details.checkbox.sensitive = false ∧
    (entry_text_changed_cb
        (with_entry_text (ready_dialog false) "newname")).default_response = some ResponseId.CONFLICT_RESPONSE_RENAME :=
  entry_text_changed_cb_offers_rename (with_entry_text (ready_dialog false) "newname")
    (by decide) (by decide)

/-- C8: for a name that is non-empty and differs from `conflict_name`, once
the entry holds it and `entry_text_changed_cb` has run, the decision is Rename
of that name with apply-to-all off. In every state,
`peony_file_conflict_dialog_get_new_name` returns exactly that name, the Rename
button is shown, the Replace button is hidden, the default response is
`CONFLICT_RESPONSE_RENAME` and the checkbox is insensitive, so apply-to-all can
no longer be switched on. In every state the dialog reaches in which the entry
can be edited (the expander is sensitive),
`peony_file_conflict_dialog_get_apply_to_all` returns `FALSE` afterwards,
whether the checkbox was sensitive before the edit or not: the checkbox is
active only while the expander is insensitive. -/
theorem entry_text_changed_cb_rename_decision (dialog : PeonyFileConflictDialog)
    (newname : String) (hne : newname ≠ "")
    (hdiff : some newname ≠ dialog.details.conflict_name) :
    peony_file_conflict_dialog_get_new_name
        (entry_text_changed_cb (with_entry_text dialog newname)) = newname ∧
    (entry_text_changed_cb (with_entry_text dialog newname)).details.rename_button.visible =
      true ∧
    (entry_text_changed_cb (with_entry_text dialog newname)).details.replace_button.visible =
      false ∧
    (entry_text_changed_cb (with_entry_text dialog newname)).default_response =
      some ResponseId.CONFLICT_RESPONSE_RENAME ∧
    (entry_text_changed_cb (with_entry_text dialog newname)).details.checkbox.sensitive =
      false ∧
    (reachable dialog → dialog.details.expander.sensitive = true →
      peony_file_conflict_dialog_get_apply_to_all
          (entry_text_changed_cb (with_entry_text dialog newname)) = false) := by
  rw [entry_text_changed_cb_rename_branch (with_entry_text dialog newname) hne hdiff]
  refine ⟨rfl, rfl, rfl, rfl, rfl, fun hr hs => ?_⟩
  have hA : dialog.details.checkbox.active = false := by
    have := (reachable_invariant dialog hr).1
    rw [hs] at this
    simpa using this.symm
  exact hA

/-- C8 on two edits of the dialog the user first sees, whose entry holds
"notes.txt". The user types "newname" while the checkbox is sensitive: the new
name is "newname" and apply-to-all is `FALSE`. The user then types "other"
while the checkbox is insensitive: the new name is "other" and apply-to-all is
`FALSE`. -/
theorem entry_text_changed_cb_rename_decision_witness :
    (opened_dialog.details.checkbox.sensitive = true ∧
      peony_file_conflict_dialog_get_new_name
          (entry_text_changed_cb (with_entry_text opened_dialog "newname")) = "newname" ∧
      peony_file_conflict_dialog_get_apply_to_all
          (entry_text_changed_cb (with_entry_text opened_dialog "newname")) = false) ∧
    ((user_edit opened_dialog "newname").details.checkbox.sensitive = false ∧
      peony_file_conflict_dialog_get_new_name
          (entry_text_changed_cb
            (with_entry_text (user_edit opened_dialog "newname") "other")) = "other" ∧
      peony_file_conflict_dialog_get_apply_to_all
          (entry_text_changed_cb
            (with_entry_text (user_edit opened_dialog "newname") "other")) = false) :=
  have hopened : reachable opened_dialog :=
    reachable.file_list_ready _ _ _ (reachable.init {} rfl)
  have hfirst :=
    entry_text_changed_cb_rename_decision opened_dialog "newname" (by decide) (by decide)
  have hsecond :=
    entry_text_changed_cb_rename_decision (user_edit opened_dialog "newname") "other"
      (by decide) (by decide)
  ⟨⟨by decide, hfirst.1, hfirst.2.2.2.2.2 hopened (by decide)⟩,
    ⟨by decide, hsecond.1,
      hsecond.2.2.2.2.2 (reachable.edit "newname" opened_dialog hopened (by decide))
        (by decide)⟩⟩

/-! ## Empty name and original name (C9) -/

/-- C9: an empty entry behaves as one holding the original name. For every
state whose `conflict_name` is `c`, `entry_text_changed_cb` leaves the same
Replace button, Rename button, checkbox and default response for the text `""`
as for the text `c`, and `checkbox_toggled_cb` leaves the same Replace button,
Rename button, expander and checkbox for both. -/
theorem empty_name_as_original_name (dialog : PeonyFileConflictDialog) (c : String)
    (hc : dialog.details.conflict_name = some c) :
    ((entry_text_changed_cb (with_entry_text dialog "")).details.replace_button =
        (entry_text_changed_cb (with_entry_text dialog c)).details.replace_button ∧
      (entry_text_changed_cb (with_entry_text dialog "")).details.rename_button =
        (entry_text_changed_cb (with_entry_text dialog c)).details.rename_button ∧
      (entry_text_changed_cb (with_entry_text dialog "")).details.checkbox =
        (entry_text_changed_cb (with_entry_text dialog c)).details.checkbox ∧
      (entry_text_changed_cb (with_entry_text dialog "")).default_response =
        (entry_text_changed_cb (with_entry_text dialog c)).default_response) ∧
    ((checkbox_toggled_cb (with_entry_text dialog "")).details.replace_button =
        (checkbox_toggled_cb (with_entry_text dialog c)).details.replace_button ∧
      (checkbox_toggled_cb (with_entry_text dialog "")).details.rename_button =
        (checkbox_toggled_cb (with_entry_text dialog c)).details.rename_button ∧
      (checkbox_toggled_cb (with_entry_text dialog "")).details.expander =
        (checkbox_toggled_cb (with_entry_text dialog c)).details.expander ∧
      (checkbox_toggled_cb (with_entry_text dialog "")).details.checkbox =
        (checkbox_toggled_cb (with_entry_text dialog c)).details.checkbox) := by
  have h1 : g_strcmp0 (some "") (some "") = 0 := (g_strcmp0_eq_zero _ _).2 rfl
  have h2 : g_strcmp0 (some c) (some c) = 0 := (g_strcmp0_eq_zero _ _).2 rfl
  constructor
  · unfold entry_text_changed_cb
    simp only [with_entry_text, gtk_entry_get_text, hc, h1, h2, ne_eq, not_true_eq_false,
      false_and, and_false, if_false, gtk_dialog_set_default_response, and_self]
  · unfold checkbox_toggled_cb
    simp only [with_entry_text, gtk_entry_get_text, hc, h1, h2, ne_eq, not_true_eq_false,
      false_and, and_false, if_false, and_self]

/-- C9 at the original name "notes.txt". -/
theorem empty_name_as_original_name_witness :
    ((entry_text_changed_cb (with_entry_text (ready_dialog false) "")).details.replace_button =
        (entry_text_changed_cb
          (with_entry_text (ready_dialog false) "notes.txt")).details.replace_button ∧
      (entry_text_changed_cb (with_entry_text (ready_dialog false) "")).details.rename_button =
        (entry_text_changed_cb
          (with_entry_text (ready_dialog false) "notes.txt")).details.rename_button ∧
      (entry_text_changed_cb (with_entry_text (ready_dialog false) "")).details.checkbox =
        (entry_text_changed_cb
          (with_entry_text (ready_dialog false) "notes.txt")).details.checkbox ∧
      (entry_text_changed_cb (with_entry_text (ready_dialog false) "")).default_response =
        (entry_text_changed_cb
          (with_entry_text (ready_dialog false) "notes.txt")).default_response) ∧
    ((checkbox_toggled_cb (with_entry_text (ready_dialog false) "")).details.replace_button =
        (checkbox_toggled_cb
          (with_entry_text (ready_dialog false) "notes.txt")).details.replace_button ∧
      (checkbox_toggled_cb (with_entry_text (ready_dialog false) "")).details.rename_button =
        (checkbox_toggled_cb
          (with_entry_text (ready_dialog false) "notes.txt")).details.rename_button ∧
      (checkbox_toggled_cb (with_entry_text (ready_dialog false) "")).details.expander =
        (checkbox_toggled_cb
          (with_entry_text (ready_dialog false) "notes.txt")).details.expander ∧
      (checkbox_toggled_cb (with_entry_text (ready_dialog false) "")).details.checkbox =
        (checkbox_toggled_cb
          (with_entry_text (ready_dialog false) "notes.txt")).details.checkbox) :=
  empty_name_as_original_name (ready_dialog false) "notes.txt" (by decide)

/-! ## Toggling apply-to-all on (C10) -/

/-- C10: whatever the entry holds, after `checkbox_toggled_cb` runs with the
checkbox active the Replace button is visible, the Rename button is hidden and
insensitive, and the rename expander is insensitive. -/
theorem checkbox_toggled_cb_active (dialog : PeonyFileConflictDialog)
    (hactive : dialog.details.checkbox.active = true) :
    (checkbox_toggled_cb dialog).details.replace_button.visible = true ∧
    (checkbox_toggled_cb dialog).details.rename_button.visible = false ∧
    (checkbox_toggled_cb dialog).details.rename_button.sensitive = false ∧
    (checkbox_toggled_cb dialog).details.expander.sensitive = false := by
  unfold checkbox_toggled_cb
  simp only [gtk_toggle_button_get_active, hactive, Bool.not_true, Bool.false_eq_true,
    false_and, if_false]
  exact ⟨rfl, rfl, rfl, rfl⟩

/-- C10 at an active checkbox with "newname", which differs from the original
name "notes.txt", in the entry. -/
theorem checkbox_toggled_cb_active_witness :
    (with_entry_text (ready_dialog true) "newname").details.entry.text ≠ "" ∧
    some (with_entry_text (ready_dialog true) "newname").details.entry.text ≠
      (with_entry_text (ready_dialog true) "newname").details.conflict_name ∧
    (checkbox_toggled_cb
        (with_entry_text (ready_dialog true) "newname")).details.replace_button.visible = true ∧
    (checkbox_toggled_cb
        (with_entry_text (ready_dialog true) "newname")).details.rename_button.visible = false ∧
    (checkbox_toggled_cb
        (with_entry_text (ready_dialog true) "newname")).details.rename_button.sensitive = false ∧
    (checkbox_toggled_cb
        (with_entry_text (ready_dialog true) "newname")).details.expander.sensitive = false :=
  ⟨by decide, by decide,
    checkbox_toggled_cb_active (with_entry_text (ready_dialog true) "newname") (by decide)⟩

/-! ## Toggling apply-to-all off (C11) -/

/-- C11: if the entry is non-empty and differs from `conflict_name`, then after
`checkbox_toggled_cb` runs with the checkbox inactive the Rename button is
visible and sensitive, the Replace button is hidden and the rename expander is
sensitive. -/
theorem checkbox_toggled_cb_inactive (dialog : PeonyFileConflictDialog)
    (hinactive : dialog.details.checkbox.active = false)
    (hne : dialog.details.entry.text ≠ "")
    (hdiff : some dialog.details.entry.text ≠ dialog.details.conflict_name) :
    (checkbox_toggled_cb dialog).details.rename_button.visible = true ∧
    (checkbox_toggled_cb dialog).details.rename_button.sensitive = true ∧
    (checkbox_toggled_cb dialog).details.replace_button.visible = false ∧
    (checkbox_toggled_cb dialog).details.expander.sensitive = true := by
  rw [checkbox_toggled_cb_rename_branch dialog hinactive hne hdiff]
  exact ⟨rfl, rfl, rfl, rfl⟩

/-- C11 at an inactive checkbox with "newname", which differs from the original
name "notes.txt", in the entry. -/
theorem checkbox_toggled_cb_inactive_witness :
    (with_entry_text (ready_dialog false) "newname").details.checkbox.active = false ∧
    (with_entry_text (ready_dialog false) "newname").details.entry.text ≠ "" ∧
    some (with_entry_text (ready_dialog false) "newname").details.entry.text ≠
      (with_entry_text (ready_dialog false) "newname").details.conflict_name ∧
    (checkbox_toggled_cb
        (with_entry_text (ready_dialog false) "newname")).details.rename_button.visible = true ∧
    (checkbox_toggled_cb
        (with_entry_text (ready_dialog false) "newname")).details.rename_button.sensitive = true ∧
    (checkbox_toggled_cb
        (with_entry_text (ready_dialog false) "newname")).details.replace_button.visible = false ∧
    (checkbox_toggled_cb
        (with_entry_text (ready_dialog false) "newname")).details.expander.sensitive = true :=
  ⟨by decide, by decide, by decide,
    checkbox_toggled_cb_inactive (with_entry_text (ready_dialog false) "newname") (by decide)
      (by decide) (by decide)⟩

/-! ## A Rename decision carries a custom name (C13) -/

/-- C13: right after `entry_text_changed_cb`, and right after
`checkbox_toggled_cb`, a visible Rename button means that the entry text, which
is what `peony_file_conflict_dialog_get_new_name` returns, is non-empty and
differs from `conflict_name`. -/
theorem rename_visible_carries_custom_name (dialog : PeonyFileConflictDialog) :
    ((entry_text_changed_cb dialog).details.rename_button.visible = true →
      peony_file_conflict_dialog_get_new_name (entry_text_changed_cb dialog) ≠ "" ∧
      some (peony_file_conflict_dialog_get_new_name (entry_text_changed_cb dialog)) ≠
        (entry_text_changed_cb dialog).details.conflict_name) ∧
    ((checkbox_toggled_cb dialog).details.rename_button.visible = true →
      peony_file_conflict_dialog_get_new_name (checkbox_toggled_cb dialog) ≠ "" ∧
      some (peony_file_conflict_dialog_get_new_name (checkbox_toggled_cb dialog)) ≠
        (checkbox_toggled_cb dialog).details.conflict_name) := by
  constructor
  · rcases entry_text_changed_cb_cases dialog with ⟨hc, he⟩ | ⟨_, he⟩
    · intro _
      rw [he]
      exact hc
    · intro hv
      rw [he] at hv
      exact absurd hv (by simp [gtk_widget_hide])
  · by_cases h : dialog.details.checkbox.active = false ∧ dialog.details.entry.text ≠ "" ∧
        some dialog.details.entry.text ≠ dialog.details.conflict_name
    · intro _
      rw [checkbox_toggled_cb_rename_branch dialog h.1 h.2.1 h.2.2]
      exact h.2
    · intro hv
      rw [checkbox_toggled_cb_replace_branch dialog h] at hv
      exact absurd hv (by simp [gtk_widget_hide])

/-- C13 at "newname" typed over "notes.txt": the Rename button is visible after
either callback, and the name returned is "newname". -/
theorem rename_visible_carries_custom_name_witness :
    (entry_text_changed_cb
        (with_entry_text (ready_dialog false) "newname")).details.rename_button.visible = true ∧
    (checkbox_toggled_cb
        (with_entry_text (ready_dialog false) "newname")).details.rename_button.visible = true ∧
    (peony_file_conflict_dialog_get_new_name
          (entry_text_changed_cb (with_entry_text (ready_dialog false) "newname")) ≠ "" ∧
      some (peony_file_conflict_dialog_get_new_name
          (entry_text_changed_cb (with_entry_text (ready_dialog false) "newname"))) ≠
        (entry_text_changed_cb
          (with_entry_text (ready_dialog false) "newname")).details.conflict_name) ∧
    (peony_file_conflict_dialog_get_new_name
          (checkbox_toggled_cb (with_entry_text (ready_dialog false) "newname")) ≠ "" ∧
      some (peony_file_conflict_dialog_get_new_name
          (checkbox_toggled_cb (with_entry_text (ready_dialog false) "newname"))) ≠
        (checkbox_toggled_cb
          (with_entry_text (ready_dialog false) "newname")).details.conflict_name) :=
  ⟨by decide, by decide,
    (rename_visible_carries_custom_name
      (with_entry_text (ready_dialog false) "newname")).1 (by decide),
    (rename_visible_carries_custom_name
      (with_entry_text (ready_dialog false) "newname")).2 (by decide)⟩

/-! ## Apply-to-all against a custom name (C12) -/

/-- C12: in no state reached from `peony_file_conflict_dialog_init` by
`file_list_ready_cb`, by edits and Reset clicks made while the expander is
sensitive and by checkbox clicks made while the checkbox is sensitive, is
apply-to-all active while the entry holds a name that is non-empty and differs
from `conflict_name`. -/
theorem apply_to_all_excludes_custom_name (d : PeonyFileConflictDialog) (h : reachable d) :
    ¬ (peony_file_conflict_dialog_get_apply_to_all d = true ∧
      peony_file_conflict_dialog_get_new_name d ≠ "" ∧
      some (peony_file_conflict_dialog_get_new_name d) ≠ d.details.conflict_name) :=
  fun hc => (reachable_invariant d h).2.2 hc.1 hc.2

/-- C12 on two runs. The user switches apply-to-all on once the files are
ready: the entry still holds "notes.txt". The user types "newname" and clicks
the checkbox, now insensitive, all the same: that state is not among the
reachable ones, and there apply-to-all is active beside the custom name. -/
theorem apply_to_all_excludes_custom_name_witness :
    peony_file_conflict_dialog_get_apply_to_all
        (user_toggle (file_list_ready_cb
          (conflict_env "Documents" "notes.txt" "notes.txt" false false 100 200) [0, 1, 2]
          (peony_file_conflict_dialog_init {}))) = true ∧
    ¬ (peony_file_conflict_dialog_get_apply_to_all
          (user_toggle (file_list_ready_cb
            (conflict_env "Documents" "notes.txt" "notes.txt" false false 100 200) [0, 1, 2]
            (peony_file_conflict_dialog_init {}))) = true ∧
      peony_file_conflict_dialog_get_new_name
          (user_toggle (file_list_ready_cb
            (conflict_env "Documents" "notes.txt" "notes.txt" false false 100 200) [0, 1, 2]
            (peony_file_conflict_dialog_init {}))) ≠ "" ∧
      some (peony_file_conflict_dialog_get_new_name
          (user_toggle (file_list_ready_cb
            (conflict_env "Documents" "notes.txt" "notes.txt" false false 100 200) [0, 1, 2]
            (peony_file_conflict_dialog_init {})))) ≠
        (user_toggle (file_list_ready_cb
          (conflict_env "Documents" "notes.txt" "notes.txt" false false 100 200) [0, 1, 2]
          (peony_file_conflict_dialog_init {}))).details.conflict_name) ∧
    (user_edit (file_list_ready_cb
        (conflict_env "Documents" "notes.txt" "notes.txt" false false 100 200) [0, 1, 2]
        (peony_file_conflict_dialog_init {})) "newname").details.checkbox.sensitive = false ∧
    peony_file_conflict_dialog_get_apply_to_all
        (user_toggle (user_edit (file_list_ready_cb
          (conflict_env "Documents" "notes.txt" "notes.txt" false false 100 200) [0, 1, 2]
          (peony_file_conflict_dialog_init {})) "newname")) = true :=
  ⟨by decide,
    apply_to_all_excludes_custom_name _
      (reachable.toggle _
        (reachable.file_list_ready
          (conflict_env "Documents" "notes.txt" "notes.txt" false false 100 200) [0, 1, 2] _
          (reachable.init {} rfl))
        (by decide)),
    by decide, by decide⟩

/-! ## Merge is a relabelled Replace (C14) -/

/-- C14: on a dialog whose confirm button has the label "Replace" and the
response `CONFLICT_RESPONSE_REPLACE`, as `peony_file_conflict_dialog_init`
adds it, `file_list_ready_cb` leaves the label "Merge" if and only if source
and destination are both directories, the label "Replace" otherwise, and the
response `CONFLICT_RESPONSE_REPLACE` in both cases. -/
theorem file_list_ready_cb_merge_label (env : Env) (dest_dir dest src : PeonyFile)
    (fcd : PeonyFileConflictDialog)
    (hlabel : fcd.details.replace_button.label = "Replace")
    (hresponse : fcd.details.replace_button.response_id =
      some ResponseId.CONFLICT_RESPONSE_REPLACE) :
    ((file_list_ready_cb env [dest_dir, dest, src] fcd).details.replace_button.label = "Merge" ↔
      env.peony_file_is_directory (some src) = true ∧
        env.peony_file_is_directory (some dest) = true) ∧
    (¬ (env.peony_file_is_directory (some src) = true ∧
        env.peony_file_is_directory (some dest) = true) →
      (file_list_ready_cb env [dest_dir, dest, src] fcd).details.replace_button.label =
        "Replace") ∧
    (file_list_ready_cb env [dest_dir, dest, src] fcd).details.replace_button.response_id =
      some ResponseId.CONFLICT_RESPONSE_REPLACE := by
  obtain ⟨hl, hr⟩ := file_list_ready_cb_replace_button env [dest_dir, dest, src] fcd
  obtain ⟨_, h1, h2⟩ := g_list_nth_data_triple dest_dir dest src
  rw [h1, h2, hlabel] at hl
  rw [hl, hr, hresponse]
  refine ⟨?_, ?_, rfl⟩
  · by_cases hb : env.peony_file_is_directory (some src) = true ∧
        env.peony_file_is_directory (some dest) = true
    · simp [hb]
    · simp only [if_neg hb]
      exact ⟨fun h => absurd h (by decide), fun h => absurd h hb⟩
  · intro hb
    rw [if_neg hb]

/-- C14 on the dialog as `peony_file_conflict_dialog_init` builds it, for a
folder met by a folder. -/
theorem file_list_ready_cb_merge_label_witness :
    (peony_file_conflict_dialog_init {}).details.replace_button.label = "Replace" ∧
    (peony_file_conflict_dialog_init {}).details.replace_button.response_id =
      some ResponseId.CONFLICT_RESPONSE_REPLACE ∧
    (file_list_ready_cb (conflict_env "Documents" "photos" "photos" true true 100 200)
        [0, 1, 2] (peony_file_conflict_dialog_init {})).details.replace_button.label = "Merge" ∧
    (file_list_ready_cb (conflict_env "Documents" "photos" "photos" true true 100 200)
        [0, 1, 2] (peony_file_conflict_dialog_init {})).details.replace_button.response_id =
      some ResponseId.CONFLICT_RESPONSE_REPLACE :=
  ⟨rfl, rfl,
    ((file_list_ready_cb_merge_label
      (conflict_env "Documents" "photos" "photos" true true 100 200) 0 1 2
      (peony_file_conflict_dialog_init {}) rfl rfl).1).2 ⟨rfl, rfl⟩,
    (file_list_ready_cb_merge_label
      (conflict_env "Documents" "photos" "photos" true true 100 200) 0 1 2
      (peony_file_conflict_dialog_init {}) rfl rfl).2.2⟩

/-! ## Skip (C15) -/

/-- C15: the Skip button that `peony_file_conflict_dialog_init` adds is visible
and sensitive and answers `CONFLICT_RESPONSE_SKIP`, and none of
`entry_text_changed_cb`, `checkbox_toggled_cb`, `reset_button_clicked_cb`,
`expander_activated_cb`, `file_list_ready_cb` and `file_icons_changed` changes
it, whatever the entry holds and whatever the checkbox's state. -/
theorem skip_button_always_available (env : Env) (files : List PeonyFile)
    (fcd dialog : PeonyFileConflictDialog) :
    ((peony_file_conflict_dialog_init fcd).skip_button.visible = true ∧
      (peony_file_conflict_dialog_init fcd).skip_button.sensitive = true ∧
      (peony_file_conflict_dialog_init fcd).skip_button.response_id =
        some ResponseId.CONFLICT_RESPONSE_SKIP) ∧
    (entry_text_changed_cb dialog).skip_button = dialog.skip_button ∧
    (checkbox_toggled_cb dialog).skip_button = dialog.skip_button ∧
    (reset_button_clicked_cb env dialog).skip_button = dialog.skip_button ∧
    (expander_activated_cb env dialog).skip_button = dialog.skip_button ∧
    (file_list_ready_cb env files dialog).skip_button = dialog.skip_button ∧
    (file_icons_changed env dialog).skip_button = dialog.skip_button := by
  refine ⟨⟨rfl, rfl, rfl⟩, ?_, ?_, ?_, ?_, file_list_ready_cb_skip_button env files dialog, rfl⟩
  · rcases entry_text_changed_cb_cases dialog with ⟨_, he⟩ | ⟨_, he⟩ <;> rw [he]
  · unfold checkbox_toggled_cb
    simp only []
    split_ifs <;> rfl
  · show (gtk_entry_set_text dialog dialog.details.conflict_name).skip_button = _
    cases dialog.details.conflict_name with
    | none => rfl
    | some c => rw [gtk_entry_set_text_some]
  · unfold expander_activated_cb
    simp only []
    split_ifs <;> rfl

/-! ## The Differences button (C16) -/

/-- C16: when the list handed to `file_list_ready_cb` holds the dialog's own
destination and source, the Differences button is visible afterwards if and
only if neither is a directory, `meld` is found and neither is binary; in every
other case it is hidden. -/
theorem file_list_ready_cb_diff_button_visible (env : Env) (dest_dir dest src : PeonyFile)
    (fcd : PeonyFileConflictDialog)
    (hsource : fcd.details.source = some src)
    (hdestination : fcd.details.destination = some dest) :
    ((file_list_ready_cb env [dest_dir, dest, src] fcd).details.diff_button.visible = true ↔
      env.peony_file_is_directory (some src) = false ∧
      env.peony_file_is_directory (some dest) = false ∧
      (env.g_find_program_in_path "meld").isSome = true ∧
      env.peony_file_is_binary (some src) = false ∧
      env.peony_file_is_binary (some dest) = false) ∧
    ((file_list_ready_cb env [dest_dir, dest, src] fcd).details.diff_button.visible = false ↔
      ¬ (env.peony_file_is_directory (some src) = false ∧
        env.peony_file_is_directory (some dest) = false ∧
        (env.g_find_program_in_path "meld").isSome = true ∧
        env.peony_file_is_binary (some src) = false ∧
        env.peony_file_is_binary (some dest) = false)) := by
  have h := file_list_ready_cb_diff_button env [dest_dir, dest, src] fcd
  obtain ⟨_, h1, h2⟩ := g_list_nth_data_triple dest_dir dest src
  rw [h1, h2, hsource, hdestination] at h
  refine ⟨h, ?_⟩
  rw [← h]
  cases (file_list_ready_cb env [dest_dir, dest, src] fcd).details.diff_button.visible <;> simp

/-- C16 for two text files with `meld` installed, and for a folder met by a
folder. -/
theorem file_list_ready_cb_diff_button_visible_witness :
    (file_list_ready_cb (conflict_env "Documents" "notes.txt" "notes.txt" false false 100 200)
        [0, 1, 2] (sample_dialog false)).details.diff_button.visible = true ∧
    (file_list_ready_cb (conflict_env "Documents" "photos" "photos" true true 100 200)
        [0, 1, 2] (sample_dialog false)).details.diff_button.visible = false :=
  ⟨((file_list_ready_cb_diff_button_visible
      (conflict_env "Documents" "notes.txt" "notes.txt" false false 100 200) 0 1 2
      (sample_dialog false) rfl rfl).1).2 ⟨rfl, rfl, rfl, rfl, rfl⟩,
    ((file_list_ready_cb_diff_button_visible
      (conflict_env "Documents" "photos" "photos" true true 100 200) 0 1 2
      (sample_dialog false) rfl rfl).2).2 (fun h => absurd h.1 (by decide))⟩

/-! ## Teardown (C17) -/

/-- C17: let `fcd` be the dialog before `file_list_ready_cb` has fired: the
request is pending (`handle` non-`NULL`), both handler ids are `0`, source and
destination are set. `do_finalize` on `fcd` cancels the request and makes no
call of `g_signal_handler_disconnect` or `peony_file_monitor_remove`; its
registrations stay as they are. `do_finalize` after `file_list_ready_cb` on
the dialog's own files makes no cancellation, disconnects the `"changed"`
handlers of source and destination with the ids then stored and removes both
monitors. Neither run calls `gtk_dialog_response`. -/
theorem do_finalize_before_and_after_ready (env : Env) (dest_dir dest src : PeonyFile)
    (fcd : PeonyFileConflictDialog) (handle : PeonyFileListHandle)
    (hhandle : fcd.details.handle = some handle)
    (hsrc_id : fcd.details.src_handler_id = 0)
    (hdest_id : fcd.details.dest_handler_id = 0)
    (hsource : fcd.details.source = some src)
    (hdestination : fcd.details.destination = some dest) :
    ((do_finalize fcd).2 =
        [ExternalCall.g_free fcd.details.conflict_name,
          ExternalCall.peony_file_list_cancel_call_when_ready handle,
          ExternalCall.peony_file_unref (some src),
          ExternalCall.peony_file_unref (some dest),
          ExternalCall.peony_file_unref fcd.details.dest_dir,
          ExternalCall.parent_finalize] ∧
      (do_finalize fcd).1.monitors = fcd.monitors ∧
      (do_finalize fcd).1.changed_handlers = fcd.changed_handlers) ∧
    ((file_list_ready_cb env [dest_dir, dest, src] fcd).details.handle = none ∧
      (do_finalize (file_list_ready_cb env [dest_dir, dest, src] fcd)).2 =
        [ExternalCall.g_free (some (env.peony_file_get_edit_name (some dest))),
          ExternalCall.g_signal_handler_disconnect (some src) (fcd.handler_seq + 1),
          ExternalCall.peony_file_monitor_remove (some src),
          ExternalCall.g_signal_handler_disconnect (some dest) (fcd.handler_seq + 1 + 1),
          ExternalCall.peony_file_monitor_remove (some dest),
          ExternalCall.peony_file_unref (some src),
          ExternalCall.peony_file_unref (some dest),
          ExternalCall.peony_file_unref fcd.details.dest_dir,
          ExternalCall.parent_finalize] ∧
      src ∉ (do_finalize (file_list_ready_cb env [dest_dir, dest, src] fcd)).1.monitors ∧
      dest ∉ (do_finalize (file_list_ready_cb env [dest_dir, dest, src] fcd)).1.monitors ∧
      (fcd.handler_seq + 1, src) ∉
        (do_finalize (file_list_ready_cb env [dest_dir, dest, src] fcd)).1.changed_handlers ∧
      (fcd.handler_seq + 1 + 1, dest) ∉
        (do_finalize (file_list_ready_cb env [dest_dir, dest, src] fcd)).1.changed_handlers) ∧
    (∀ response_id, ExternalCall.gtk_dialog_response response_id ∉ (do_finalize fcd).2) ∧
    (∀ response_id, ExternalCall.gtk_dialog_response response_id ∉
      (do_finalize (file_list_ready_cb env [dest_dir, dest, src] fcd)).2) := by
  have hbefore : do_finalize fcd =
      (fcd, [ExternalCall.g_free fcd.details.conflict_name,
        ExternalCall.peony_file_list_cancel_call_when_ready handle,
        ExternalCall.peony_file_unref (some src),
        ExternalCall.peony_file_unref (some dest),
        ExternalCall.peony_file_unref fcd.details.dest_dir,
        ExternalCall.parent_finalize]) := by
    unfold do_finalize
    simp [hhandle, hsrc_id, hdest_id, hsource, hdestination]
  obtain ⟨r1, r2, r3, r4, r5, r6, r7, r8⟩ :=
    file_list_ready_cb_registrations env dest_dir dest src fcd
  have hname := file_list_ready_cb_conflict_name env [dest_dir, dest, src] fcd
  rw [(g_list_nth_data_triple dest_dir dest src).2.1] at hname
  have hafter : (do_finalize (file_list_ready_cb env [dest_dir, dest, src] fcd)).2 =
      [ExternalCall.g_free (some (env.peony_file_get_edit_name (some dest))),
        ExternalCall.g_signal_handler_disconnect (some src) (fcd.handler_seq + 1),
        ExternalCall.peony_file_monitor_remove (some src),
        ExternalCall.g_signal_handler_disconnect (some dest) (fcd.handler_seq + 1 + 1),
        ExternalCall.peony_file_monitor_remove (some dest),
        ExternalCall.peony_file_unref (some src),
        ExternalCall.peony_file_unref (some dest),
        ExternalCall.peony_file_unref fcd.details.dest_dir,
        ExternalCall.parent_finalize] := by
    unfold do_finalize
    simp [r1, r2, r3, r4, r5, r6, hname, hsource, hdestination]
  have hmon : ∀ f, f ∈ (do_finalize (file_list_ready_cb env [dest_dir, dest, src] fcd)).1.monitors →
      f ≠ src ∧ f ≠ dest := by
    intro f
    unfold do_finalize
    simp only [r2, r3, r4, r5, hsource, hdestination, ne_eq, Nat.add_eq_zero, one_ne_zero,
      and_false, not_false_eq_true, if_true, peony_file_monitor_remove,
      g_signal_handler_disconnect, List.mem_filter, Bool.not_eq_true', decide_eq_false_iff_not,
      Option.some.injEq]
    tauto
  have hhan : ∀ h, h ∈
      (do_finalize (file_list_ready_cb env [dest_dir, dest, src] fcd)).1.changed_handlers →
      ¬ (h.1 = fcd.handler_seq + 1 ∧ h.2 = src) ∧
        ¬ (h.1 = fcd.handler_seq + 1 + 1 ∧ h.2 = dest) := by
    intro h
    unfold do_finalize
    simp only [r2, r3, r4, r5, hsource, hdestination, ne_eq, Nat.add_eq_zero, one_ne_zero,
      and_false, not_false_eq_true, if_true, peony_file_monitor_remove,
      g_signal_handler_disconnect, List.mem_filter, Bool.not_eq_true', decide_eq_false_iff_not,
      Option.some.injEq]
    tauto
  refine ⟨?_, ⟨r1, hafter, ?_, ?_, ?_, ?_⟩, ?_, ?_⟩
  · rw [hbefore]
    exact ⟨rfl, rfl, rfl⟩
  · exact fun hm => (hmon src hm).1 rfl
  · exact fun hm => (hmon dest hm).2 rfl
  · exact fun hm => (hhan _ hm).1 ⟨rfl, rfl⟩
  · exact fun hm => (hhan _ hm).2 ⟨rfl, rfl⟩
  · intro response_id
    rw [hbefore]
    simp
  · intro response_id
    rw [hafter]
    simp

/-- C17 on the concrete dialog: torn down while the request for files 0, 1, 2
is pending, and torn down after the files came in. -/
theorem do_finalize_before_and_after_ready_witness :
    (do_finalize (sample_dialog false)).2 =
      [ExternalCall.g_free none,
        ExternalCall.peony_file_list_cancel_call_when_ready { files := [0, 1, 2] },
        ExternalCall.peony_file_unref (some 2),
        ExternalCall.peony_file_unref (some 1),
        ExternalCall.peony_file_unref (some 0),
        ExternalCall.parent_finalize] ∧
    (do_finalize (ready_dialog false)).2 =
      [ExternalCall.g_free (some "notes.txt"),
        ExternalCall.g_signal_handler_disconnect (some 2) 1,
        ExternalCall.peony_file_monitor_remove (some 2),
        ExternalCall.g_signal_handler_disconnect (some 1) 2,
        ExternalCall.peony_file_monitor_remove (some 1),
        ExternalCall.peony_file_unref (some 2),
        ExternalCall.peony_file_unref (some 1),
        ExternalCall.peony_file_unref (some 0),
        ExternalCall.parent_finalize] ∧
    (do_finalize (ready_dialog false)).1.monitors = [] ∧
    (do_finalize (ready_dialog false)).1.changed_handlers = [] :=
  ⟨(do_finalize_before_and_after_ready
      (conflict_env "Documents" "notes.txt" "notes.txt" false false 100 200) 0 1 2
      (sample_dialog false) { files := [0, 1, 2] } rfl rfl rfl rfl rfl).1.1,
    (do_finalize_before_and_after_ready
      (conflict_env "Documents" "notes.txt" "notes.txt" false false 100 200) 0 1 2
      (sample_dialog false) { files := [0, 1, 2] } rfl rfl rfl rfl rfl).2.1.2.1,
    by decide, by decide⟩

/-! ## Live updates (C18) -/

/-- C18: `file_icons_changed` changes nothing but the pixbufs of `dest_image`
and `src_image`: the dialog afterwards is the dialog before with new pixbufs in
the two images. In particular the entry, `conflict_name`, the checkbox, the
Rename and Replace buttons and the default response are the same before and
after. -/
theorem file_icons_changed_refreshes_images_only (env : Env) (fcd : PeonyFileConflictDialog) :
    file_icons_changed env fcd =
      { fcd with details := { fcd.details with
          dest_image := fcd.details.dest_image.map (fun image =>
            { image with pixbuf := some (env.peony_file_get_icon_pixbuf fcd.details.destination) })
          src_image := fcd.details.src_image.map (fun image =>
            { image with pixbuf := some (env.peony_file_get_icon_pixbuf fcd.details.source) }) } } ∧
    (file_icons_changed env fcd).details.entry = fcd.details.entry ∧
    (file_icons_changed env fcd).details.conflict_name = fcd.details.conflict_name ∧
    (file_icons_changed env fcd).details.checkbox = fcd.details.checkbox ∧
    (file_icons_changed env fcd).details.rename_button = fcd.details.rename_button ∧
    (file_icons_changed env fcd).details.replace_button = fcd.details.replace_button ∧
    (file_icons_changed env fcd).default_response = fcd.default_response ∧
    peony_file_conflict_dialog_get_new_name (file_icons_changed env fcd) =
      peony_file_conflict_dialog_get_new_name fcd ∧
    peony_file_conflict_dialog_get_apply_to_all (file_icons_changed env fcd) =
      peony_file_conflict_dialog_get_apply_to_all fcd :=
  ⟨rfl, rfl, rfl, rfl, rfl, rfl, rfl, rfl, rfl⟩

/-! ## Sensitivity follows the checkbox (C19) -/

/-- C19: in every state reached from `peony_file_conflict_dialog_init` by
checkbox toggles, entry edits and Reset clicks (and `file_list_ready_cb`), with
no regard to the sensitivity of the widgets acted on, the Rename button and the
expander are sensitive if and only if the checkbox is inactive; so the Rename
button is never visible and sensitive while apply-to-all is active. -/
theorem rename_sensitive_iff_not_apply_to_all (d : PeonyFileConflictDialog)
    (h : reachable_ungated d) :
    (d.details.rename_button.sensitive = true ↔ d.details.checkbox.active = false) ∧
    (d.details.expander.sensitive = true ↔ d.details.checkbox.active = false) ∧
    ¬ (d.details.rename_button.visible = true ∧ d.details.rename_button.sensitive = true ∧
      peony_file_conflict_dialog_get_apply_to_all d = true) := by
  obtain ⟨h1, h2⟩ := reachable_ungated_invariant d h
  rw [h1, h2]
  refine ⟨by simp, by simp, ?_⟩
  rintro ⟨_, hs, ha⟩
  have ha2 : d.details.checkbox.active = true := ha
  rw [ha2] at hs
  exact absurd hs (by decide)

/-- C19 after "newname" is typed and the checkbox, insensitive by then, is
toggled all the same: apply-to-all is active, Rename and the expander are
insensitive. -/
theorem rename_sensitive_iff_not_apply_to_all_witness :
    peony_file_conflict_dialog_get_apply_to_all
        (user_toggle (user_edit (peony_file_conflict_dialog_init {}) "newname")) = true ∧
    (user_toggle (user_edit (peony_file_conflict_dialog_init {})
        "newname")).details.rename_button.sensitive = false ∧
    ((user_toggle (user_edit (peony_file_conflict_dialog_init {})
          "newname")).details.rename_button.sensitive = true ↔
        (user_toggle (user_edit (peony_file_conflict_dialog_init {})
          "newname")).details.checkbox.active = false) ∧
    ((user_toggle (user_edit (peony_file_conflict_dialog_init {})
          "newname")).details.expander.sensitive = true ↔
        (user_toggle (user_edit (peony_file_conflict_dialog_init {})
          "newname")).details.checkbox.active = false) ∧
    ¬ ((user_toggle (user_edit (peony_file_conflict_dialog_init {})
          "newname")).details.rename_button.visible = true ∧
      (user_toggle (user_edit (peony_file_conflict_dialog_init {})
          "newname")).details.rename_button.sensitive = true ∧
      peony_file_conflict_dialog_get_apply_to_all
        (user_toggle (user_edit (peony_file_conflict_dialog_init {}) "newname")) = true) :=
  ⟨by decide, by decide,
    rename_sensitive_iff_not_apply_to_all _
      (reachable_ungated.toggle _
        (reachable_ungated.edit "newname" _ (reachable_ungated.init {})))⟩

/-! ## One confirm button (C20) -/

/-- C20: after every run of `entry_text_changed_cb` and of
`checkbox_toggled_cb` exactly one of the Replace and Rename buttons is visible.
In the state built by `peony_file_conflict_dialog_init` both are: the function
hides the Rename button it has just added, and its closing
`gtk_widget_show_all (dialog_area)` shows it again. -/
theorem confirm_buttons_visible (fcd dialog : PeonyFileConflictDialog) :
    ((peony_file_conflict_dialog_init fcd).details.replace_button.visible = true ∧
      (peony_file_conflict_dialog_init fcd).details.rename_button.visible = true) ∧
    ((entry_text_changed_cb dialog).details.replace_button.visible =
      !(entry_text_changed_cb dialog).details.rename_button.visible) ∧
    ((checkbox_toggled_cb dialog).details.replace_button.visible =
      !(checkbox_toggled_cb dialog).details.rename_button.visible) := by
  refine ⟨⟨rfl, rfl⟩, ?_, ?_⟩
  · rcases entry_text_changed_cb_cases dialog with ⟨_, he⟩ | ⟨_, he⟩ <;> rw [he] <;> rfl
  · by_cases h : dialog.details.checkbox.active = false ∧ dialog.details.entry.text ≠ "" ∧
        some dialog.details.entry.text ≠ dialog.details.conflict_name
    · rw [checkbox_toggled_cb_rename_branch dialog h.1 h.2.1 h.2.2]
      rfl
    · rw [checkbox_toggled_cb_replace_branch dialog h]
      rfl

/-! ## Default response and the Rename button (C21) -/

/-- C21: in every state reached from `peony_file_conflict_dialog_init` by
`file_list_ready_cb`, by edits and Reset clicks while the expander is sensitive
and by checkbox clicks while the checkbox is sensitive, a default response
`CONFLICT_RESPONSE_RENAME` means that the Rename button is visible;
`checkbox_toggled_cb` itself never changes the default response. -/
theorem default_response_rename_shows_rename (d dialog : PeonyFileConflictDialog)
    (h : reachable d)
    (hdr : d.default_response = some ResponseId.CONFLICT_RESPONSE_RENAME) :
    d.details.rename_button.visible = true ∧
    (checkbox_toggled_cb dialog).default_response = dialog.default_response := by
  refine ⟨(reachable_default_response d h hdr).1, ?_⟩
  unfold checkbox_toggled_cb
  simp only []
  split_ifs <;> rfl

/-- C21 after "newname" is typed over "notes.txt": the default response is
`CONFLICT_RESPONSE_RENAME` and the Rename button is visible. A click on the
checkbox, insensitive by then, would hide the Rename button and leave the
default response as it is; that state is not among the reachable ones. -/
theorem default_response_rename_shows_rename_witness :
    (user_edit (file_list_ready_cb
        (conflict_env "Documents" "notes.txt" "notes.txt" false false 100 200) [0, 1, 2]
        (peony_file_conflict_dialog_init {})) "newname").default_response =
      some ResponseId.CONFLICT_RESPONSE_RENAME ∧
    ((user_edit (file_list_ready_cb
        (conflict_env "Documents" "notes.txt" "notes.txt" false false 100 200) [0, 1, 2]
        (peony_file_conflict_dialog_init {})) "newname").details.rename_button.visible = true ∧
      (checkbox_toggled_cb (ready_dialog true)).default_response =
        (ready_dialog true).default_response) ∧
    (user_toggle (user_edit (file_list_ready_cb
        (conflict_env "Documents" "notes.txt" "notes.txt" false false 100 200) [0, 1, 2]
        (peony_file_conflict_dialog_init {})) "newname")).default_response =
      some ResponseId.CONFLICT_RESPONSE_RENAME ∧
    (user_toggle (user_edit (file_list_ready_cb
        (conflict_env "Documents" "notes.txt" "notes.txt" false false 100 200) [0, 1, 2]
        (peony_file_conflict_dialog_init {})) "newname")).details.rename_button.visible = false :=
  ⟨by decide,
    default_response_rename_shows_rename _ (ready_dialog true)
      (reachable.edit "newname" _
        (reachable.file_list_ready
          (conflict_env "Documents" "notes.txt" "notes.txt" false false 100 200) [0, 1, 2] _
          (reachable.init {} rfl))
        (by decide))
      (by decide),
    by decide, by decide⟩

/-! ## Reset (C22) -/

/-- C22, as stated, fails in two reachable states. Before `file_list_ready_cb`
has run, `conflict_name` is `NULL`: with "abc" typed, Reset leaves "abc" in the
entry, the Rename button shown and the default response
`CONFLICT_RESPONSE_RENAME`. And when the user has typed "notes.txt" before the
files come in with that very name, the entry already holds `conflict_name`, so
`gtk_entry_set_text` emits no `"changed"`: Reset leaves the Rename button
shown, the Replace button hidden and the checkbox insensitive. -/
theorem reset_button_clicked_cb_without_effect :
    ((user_edit (peony_file_conflict_dialog_init {}) "abc").details.conflict_name = none ∧
      (reset_button_clicked_cb
          (conflict_env "Documents" "notes.txt" "notes.txt" false false 100 200)
          (user_edit (peony_file_conflict_dialog_init {}) "abc")).details.entry.text = "abc" ∧
      (reset_button_clicked_cb
          (conflict_env "Documents" "notes.txt" "notes.txt" false false 100 200)
          (user_edit (peony_file_conflict_dialog_init {})
            "abc")).details.rename_button.visible = true ∧
      (reset_button_clicked_cb
          (conflict_env "Documents" "notes.txt" "notes.txt" false false 100 200)
          (user_edit (peony_file_conflict_dialog_init {}) "abc")).default_response =
        some ResponseId.CONFLICT_RESPONSE_RENAME) ∧
    ((file_list_ready_cb
          (conflict_env "Documents" "notes.txt" "notes.txt" false false 100 200) [0, 1, 2]
          (user_edit (peony_file_conflict_dialog_init {}) "notes.txt")).details.conflict_name =
        some "notes.txt" ∧
      (reset_button_clicked_cb
          (conflict_env "Documents" "notes.txt" "notes.txt" false false 100 200)
          (file_list_ready_cb
            (conflict_env "Documents" "notes.txt" "notes.txt" false false 100 200) [0, 1, 2]
            (user_edit (peony_file_conflict_dialog_init {})
              "notes.txt"))).details.entry.text = "notes.txt" ∧
      (reset_button_clicked_cb
          (conflict_env "Documents" "notes.txt" "notes.txt" false false 100 200)
          (file_list_ready_cb
            (conflict_env "Documents" "notes.txt" "notes.txt" false false 100 200) [0, 1, 2]
            (user_edit (peony_file_conflict_dialog_init {})
              "notes.txt"))).details.rename_button.visible = true ∧
      (reset_button_clicked_cb
          (conflict_env "Documents" "notes.txt" "notes.txt" false false 100 200)
          (file_list_ready_cb
            (conflict_env "Documents" "notes.txt" "notes.txt" false false 100 200) [0, 1, 2]
            (user_edit (peony_file_conflict_dialog_init {})
              "notes.txt"))).details.replace_button.visible = false ∧
      (reset_button_clicked_cb
          (conflict_env "Documents" "notes.txt" "notes.txt" false false 100 200)
          (file_list_ready_cb
            (conflict_env "Documents" "notes.txt" "notes.txt" false false 100 200) [0, 1, 2]
            (user_edit (peony_file_conflict_dialog_init {})
              "notes.txt"))).details.checkbox.sensitive = false) := by
  decide

/-- C22, amended: in every state whose `conflict_name` is set and whose entry
holds another text, after `reset_button_clicked_cb` and the
`entry_text_changed_cb` it triggers the entry text and the value of
`peony_file_conflict_dialog_get_new_name` are `conflict_name`, the Replace
button is visible, the Rename button is hidden, the checkbox is sensitive, the
default response is `CONFLICT_RESPONSE_REPLACE` and the checkbox's active state
is unchanged. -/
theorem reset_button_clicked_cb_restores (env : Env) (dialog : PeonyFileConflictDialog)
    (c : String) (hc : dialog.details.conflict_name = some c)
    (ht : dialog.details.entry.text ≠ c) :
    some (reset_button_clicked_cb env dialog).details.entry.text =
      (reset_button_clicked_cb env dialog).details.conflict_name ∧
    peony_file_conflict_dialog_get_new_name (reset_button_clicked_cb env dialog) = c ∧
    (reset_button_clicked_cb env dialog).details.replace_button.visible = true ∧
    (reset_button_clicked_cb env dialog).details.rename_button.visible = false ∧
    (reset_button_clicked_cb env dialog).details.checkbox.sensitive = true ∧
    (reset_button_clicked_cb env dialog).default_response =
      some ResponseId.CONFLICT_RESPONSE_REPLACE ∧
    peony_file_conflict_dialog_get_apply_to_all (reset_button_clicked_cb env dialog) =
      peony_file_conflict_dialog_get_apply_to_all dialog := by
  have hd := reset_button_clicked_cb_details env dialog
  have hr := reset_button_clicked_cb_default_response env dialog
  rcases gtk_entry_set_text_own_name dialog c hc with h1 | ⟨_, h1⟩
  · exfalso
    apply ht
    have ht2 := congrArg (fun x => x.details.entry.text) h1
    have ht3 : (gtk_entry_set_text dialog (some c)).details.entry.text = c := by
      rw [gtk_entry_set_text_some]
    exact ht2.symm.trans ht3
  · rw [hc, h1] at hd hr
    unfold peony_file_conflict_dialog_get_new_name peony_file_conflict_dialog_get_apply_to_all
    rw [hd, hr]
    exact ⟨hc.symm ▸ rfl, rfl, rfl, rfl, rfl, rfl, rfl⟩

/-- C22, amended, at "newname" typed over "notes.txt". -/
theorem reset_button_clicked_cb_restores_witness :
    (user_edit (ready_dialog false) "newname").details.conflict_name = some "notes.txt" ∧
    (user_edit (ready_dialog false) "newname").details.entry.text = "newname" ∧
    (user_edit (ready_dialog false) "newname").details.rename_button.visible = true ∧
    (some (reset_button_clicked_cb
          (conflict_env "Documents" "notes.txt" "notes.txt" false false 100 200)
          (user_edit (ready_dialog false) "newname")).details.entry.text =
        (reset_button_clicked_cb
          (conflict_env "Documents" "notes.txt" "notes.txt" false false 100 200)
          (user_edit (ready_dialog false) "newname")).details.conflict_name ∧
      peony_file_conflict_dialog_get_new_name (reset_button_clicked_cb
          (conflict_env "Documents" "notes.txt" "notes.txt" false false 100 200)
          (user_edit (ready_dialog false) "newname")) = "notes.txt" ∧
      (reset_button_clicked_cb
          (conflict_env "Documents" "notes.txt" "notes.txt" false false 100 200)
          (user_edit (ready_dialog false) "newname")).details.replace_button.visible = true ∧
      (reset_button_clicked_cb
          (conflict_env "Documents" "notes.txt" "notes.txt" false false 100 200)
          (user_edit (ready_dialog false) "newname")).details.rename_button.visible = false ∧
      (reset_button_clicked_cb
          (conflict_env "Documents" "notes.txt" "notes.txt" false false 100 200)
          (user_edit (ready_dialog false) "newname")).details.checkbox.sensitive = true ∧
      (reset_button_clicked_cb
          (conflict_env "Documents" "notes.txt" "notes.txt" false false 100 200)
          (user_edit (ready_dialog false) "newname")).default_response =
        some ResponseId.CONFLICT_RESPONSE_REPLACE ∧
      peony_file_conflict_dialog_get_apply_to_all (reset_button_clicked_cb
          (conflict_env "Documents" "notes.txt" "notes.txt" false false 100 200)
          (user_edit (ready_dialog false) "newname")) =
        peony_file_conflict_dialog_get_apply_to_all
          (user_edit (ready_dialog false) "newname")) :=
  ⟨by decide, by decide, by decide,
    reset_button_clicked_cb_restores
      (conflict_env "Documents" "notes.txt" "notes.txt" false false 100 200)
      (user_edit (ready_dialog false) "newname") "notes.txt" (by decide) (by decide)⟩

/-! ## The roles of the three files (C23) -/

/-- C23: `build_dialog_appearance` hands on the list dest_dir, destination,
source, in this order. When the three are set and `file_list_ready_cb` receives
the files of that list, positions 0, 1 and 2 are `details->dest_dir`,
`details->destination` and `details->source`; so the directory flags, mtimes
and names that choose the texts, and the name put into `conflict_name`, are
those of the dialog's own destination, source and destination directory. -/
theorem build_dialog_appearance_roles (env : Env) (fcd : PeonyFileConflictDialog)
    (dest_dir dest src : PeonyFile)
    (hsource : fcd.details.source = some src)
    (hdestination : fcd.details.destination = some dest)
    (hdest_dir : fcd.details.dest_dir = some dest_dir) :
    (build_dialog_appearance fcd).2 =
      [fcd.details.dest_dir, fcd.details.destination, fcd.details.source] ∧
    (build_dialog_appearance fcd).1.details.handle = some { files := [dest_dir, dest, src] } ∧
    (g_list_nth_data [dest_dir, dest, src] 0 = fcd.details.dest_dir ∧
      g_list_nth_data [dest_dir, dest, src] 1 = fcd.details.destination ∧
      g_list_nth_data [dest_dir, dest, src] 2 = fcd.details.source) ∧
    (file_list_ready_cb env [dest_dir, dest, src]
        (build_dialog_appearance fcd).1).details.titles_vbox =
      fcd.details.titles_vbox ++
        [BoxChild.widget (gtk_widget_show (gtk_label_new
          (file_list_ready_cb_labels (env.peony_file_is_directory fcd.details.destination)
            (env.peony_file_is_directory fcd.details.source)
            (env.peony_file_get_mtime fcd.details.source)
            (env.peony_file_get_mtime fcd.details.destination)
            (env.peony_file_get_display_name fcd.details.destination)
            (env.peony_file_get_display_name fcd.details.dest_dir)).1)),
         BoxChild.widget (gtk_widget_show (gtk_label_new
          ((file_list_ready_cb_labels (env.peony_file_is_directory fcd.details.destination)
            (env.peony_file_is_directory fcd.details.source)
            (env.peony_file_get_mtime fcd.details.source)
            (env.peony_file_get_mtime fcd.details.destination)
            (env.peony_file_get_display_name fcd.details.destination)
            (env.peony_file_get_display_name fcd.details.dest_dir)).2.1 ++ "\n" ++
           (file_list_ready_cb_labels (env.peony_file_is_directory fcd.details.destination)
            (env.peony_file_is_directory fcd.details.source)
            (env.peony_file_get_mtime fcd.details.source)
            (env.peony_file_get_mtime fcd.details.destination)
            (env.peony_file_get_display_name fcd.details.destination)
            (env.peony_file_get_display_name fcd.details.dest_dir)).2.2)))] ∧
    (file_list_ready_cb env [dest_dir, dest, src]
        (build_dialog_appearance fcd).1).details.conflict_name =
      some (env.peony_file_get_edit_name fcd.details.destination) := by
  obtain ⟨h0, h1, h2⟩ := g_list_nth_data_triple dest_dir dest src
  refine ⟨rfl, ?_, ⟨?_, ?_, ?_⟩, ?_, ?_⟩
  · simp [build_dialog_appearance, peony_file_list_call_when_ready, g_list_prepend, hsource,
      hdestination, hdest_dir, List.reduceOption]
  · rw [h0, hdest_dir]
  · rw [h1, hdestination]
  · rw [h2, hsource]
  · rw [file_list_ready_cb_titles_vbox, h0, h1, h2, hsource, hdestination, hdest_dir]
    rfl
  · rw [file_list_ready_cb_conflict_name, h1, hdestination]

/-- C23 for the files 0 (destination directory), 1 (destination) and 2
(source). -/
theorem build_dialog_appearance_roles_witness :
    (build_dialog_appearance (sample_dialog false)).2 = [some 0, some 1, some 2] ∧
    (build_dialog_appearance (sample_dialog false)).1.details.handle =
      some { files := [0, 1, 2] } ∧
    (g_list_nth_data [0, 1, 2] 0 = (sample_dialog false).details.dest_dir ∧
      g_list_nth_data [0, 1, 2] 1 = (sample_dialog false).details.destination ∧
      g_list_nth_data [0, 1, 2] 2 = (sample_dialog false).details.source) ∧
    (file_list_ready_cb (conflict_env "Documents" "notes.txt" "notes.txt" false false 100 200)
        [0, 1, 2] (build_dialog_appearance (sample_dialog false)).1).details.conflict_name =
      some "notes.txt" :=
  ⟨(build_dialog_appearance_roles
      (conflict_env "Documents" "notes.txt" "notes.txt" false false 100 200)
      (sample_dialog false) 0 1 2 rfl rfl rfl).1,
    (build_dialog_appearance_roles
      (conflict_env "Documents" "notes.txt" "notes.txt" false false 100 200)
      (sample_dialog false) 0 1 2 rfl rfl rfl).2.1,
    (build_dialog_appearance_roles
      (conflict_env "Documents" "notes.txt" "notes.txt" false false 100 200)
      (sample_dialog false) 0 1 2 rfl rfl rfl).2.2.1,
    (build_dialog_appearance_roles
      (conflict_env "Documents" "notes.txt" "notes.txt" false false 100 200)
      (sample_dialog false) 0 1 2 rfl rfl rfl).2.2.2.2⟩

/-! ## The desktop window's root filter (C24) -/

/-- C24: in every state a desktop window reaches from
`peony_desktop_window_init` by calls of
`peony_desktop_window_composited_changed` and of `filter_func`, the filter is
installed on the root window if and only if `details->composited` is `FALSE`,
and `details->surface` is `NULL` whenever `details->composited` is `TRUE`;
`peony_desktop_window_composited_changed` changes nothing when the screen's
composited state is the one stored; `peony_desktop_window_finalize` leaves no
filter installed and no surface. -/
theorem desktop_window_root_filter (screen : GdkScreen) (window : PeonyDesktopWindow)
    (h : desktop_reachable window) :
    (window.root_filter = true ↔ window.details.composited = false) ∧
    (window.details.composited = true → window.details.surface = none) ∧
    (screen.is_composited = window.details.composited →
      peony_desktop_window_composited_changed screen window = window) ∧
    (peony_desktop_window_finalize window).root_filter = false ∧
    (peony_desktop_window_finalize window).details.surface = none := by
  obtain ⟨h1, h2⟩ := desktop_reachable_invariant window h
  refine ⟨?_, h2, ?_, ?_, ?_⟩
  · rw [h1]
    cases window.details.composited <;> simp
  · intro heq
    unfold peony_desktop_window_composited_changed
    simp only [if_pos heq.symm]
  · rw [(peony_desktop_window_finalize_result window).2, h1]
    cases window.details.composited <;> rfl
  · exact (peony_desktop_window_finalize_result window).1

/-- C24 on a screen that is not composited when the window is created, gets a
new background and then becomes composited. -/
theorem desktop_window_root_filter_witness :
    (peony_desktop_window_init
        { is_composited := false, surface_from_root := some 7, xrootpmap_id := 400 } {}) =
      { details := { composited := false, surface := some 7 }
        root_filter := true
        root_property_change := true
        queued_draws := 1 } ∧
    (filter_func { is_composited := false, surface_from_root := some 8, xrootpmap_id := 400 }
        { type := PropertyNotify, atom := 400 }
        (peony_desktop_window_init
          { is_composited := false, surface_from_root := some 7, xrootpmap_id := 400 } {})).1 =
      { details := { composited := false, surface := some 8 }
        root_filter := true
        root_property_change := true
        destroyed := [7]
        queued_draws := 2 } ∧
    (((filter_func { is_composited := false, surface_from_root := some 8, xrootpmap_id := 400 }
          { type := PropertyNotify, atom := 400 }
          (peony_desktop_window_init
            { is_composited := false, surface_from_root := some 7, xrootpmap_id := 400 }
            {})).1.root_filter = true ↔
        (filter_func { is_composited := false, surface_from_root := some 8, xrootpmap_id := 400 }
          { type := PropertyNotify, atom := 400 }
          (peony_desktop_window_init
            { is_composited := false, surface_from_root := some 7, xrootpmap_id := 400 }
            {})).1.details.composited = false) ∧
      (peony_desktop_window_finalize
        (filter_func { is_composited := false, surface_from_root := some 8, xrootpmap_id := 400 }
          { type := PropertyNotify, atom := 400 }
          (peony_desktop_window_init
            { is_composited := false, surface_from_root := some 7, xrootpmap_id := 400 }
            {})).1).root_filter = false ∧
      (peony_desktop_window_finalize
        (filter_func { is_composited := false, surface_from_root := some 8, xrootpmap_id := 400 }
          { type := PropertyNotify, atom := 400 }
          (peony_desktop_window_init
            { is_composited := false, surface_from_root := some 7, xrootpmap_id := 400 }
            {})).1).details.surface = none) ∧
    (peony_desktop_window_composited_changed
        { is_composited := true, surface_from_root := some 9, xrootpmap_id := 400 }
        (peony_desktop_window_init
          { is_composited := false, surface_from_root := some 7, xrootpmap_id := 400 } {})) =
      { details := { composited := true, surface := none }
        root_filter := false
        root_property_change := true
        destroyed := [7]
        queued_draws := 1 } :=
  ⟨by decide, by decide,
    ⟨(desktop_window_root_filter
        { is_composited := false, surface_from_root := some 8, xrootpmap_id := 400 } _
        (desktop_reachable.filter
          { is_composited := false, surface_from_root := some 8, xrootpmap_id := 400 }
          { type := PropertyNotify, atom := 400 } _
          (desktop_reachable.init
            { is_composited := false, surface_from_root := some 7, xrootpmap_id := 400 } {}
            rfl rfl)
          (by decide))).1,
      (desktop_window_root_filter
        { is_composited := false, surface_from_root := some 8, xrootpmap_id := 400 } _
        (desktop_reachable.filter
          { is_composited := false, surface_from_root := some 8, xrootpmap_id := 400 }
          { type := PropertyNotify, atom := 400 } _
          (desktop_reachable.init
            { is_composited := false, surface_from_root := some 7, xrootpmap_id := 400 } {}
            rfl rfl)
          (by decide))).2.2.2.1,
      (desktop_window_root_filter
        { is_composited := false, surface_from_root := some 8, xrootpmap_id := 400 } _
        (desktop_reachable.filter
          { is_composited := false, surface_from_root := some 8, xrootpmap_id := 400 }
          { type := PropertyNotify, atom := 400 } _
          (desktop_reachable.init
            { is_composited := false, surface_from_root := some 7, xrootpmap_id := 400 } {}
            rfl rfl)
          (by decide))).2.2.2.2⟩,
    by decide⟩

end Peony
